import Mathlib

/-!
# Transport core of gazebo: Connection read path and PublicationTransport

Shallow embedding of

* `gazebo/transport/Connection.hh` : `AsyncRead`, `OnReadHeader`, `OnReadData`
  (the template members that live in the header),
* `src/transport/PublicationTransport.cc` : constructor, destructor, `Init`,
  `AddCallback`, `OnPublish`, `GetConnection`, `GetTopic`, `GetMsgType`, `Fini`,
* `gazebo/transport/Node.hh` : `Advertise` and the two `Subscribe` overloads,
* `gazebo/rendering/CameraLensPrivate.hh` : `MapFunctionEnum`,
* `server/World.cc` : `SetSelectedEntityCB`, `GetSelectedEntity`, `SaveState` and
  the set-up of the state buffer in `Load`,
* `test/ServerFixture.hh` : `ImageCompare`,
* `player/SimulationInterface.cc` : `ProcessMessage`,
* `gazebo/rendering/Distortion.cc` : `DistortionMapValueClamped`, `SetCamera`,
* `src/gui/CylinderMaker.cc` : `Start`, `Stop`, `IsActive`, the mouse handlers and
  `CreateTheEntity`.

Member functions become pure functions from the object's state to the new
state paired with the list of observable effects they performed, in program
order.  Calls that leave the modelled object (the error log, asynchronous
reads handed to the io service, invocation of the bound handler) are recorded
as effects.
-/

namespace Gazebo

/-- One `char` of a `std::string` or `std::vector<char>`. -/
abbrev Byte := Fin 256

/-- Contents of a `std::string` / `std::vector<char>`. -/
abbrev Bytes := List Byte

/-- The macro `HEADER_LENGTH` of `Connection.hh`. -/
def HEADER_LENGTH : Nat := 8

/-- A `boost::system::error_code` as the read handlers use it: `none` is
success (the code converts to `false`), `some m` is an error whose
`message()` is `m`. -/
abbrev ErrorCode := Option String

/-- The call `std::vector<char>::resize(n)`: keeps the first `n` elements and pads
with value-initialised (zero) elements up to length `n`. -/
def vectorResize (n : Nat) (v : Bytes) : Bytes :=
  v.take n ++ List.replicate (n - v.length) 0

/-- What `boost::asio::async_read` leaves in the buffer it was given when the
bytes `received` arrived before completion: they overwrite the front of the
buffer, which keeps its size. -/
def bufferAfterRead (buf received : Bytes) : Bytes :=
  received.take buf.length ++ buf.drop received.length

/-- Lifecycle states of a Connection. -/
inductive ConnState where
  | Connecting
  | Open
  | Closing
  | Closed
  deriving DecidableEq

/-- Observable effects of the Connection read path, for a handler type `H`. -/
inductive Effect (H : Type) where
  /-- a line written to `gzerr` -/
  | gzerr (msg : String)
  /-- the call `boost::asio::async_read` on `inbound_header` (of `n` bytes), completion
  bound to `OnReadHeader` carrying handler `h` -/
  | asyncReadHeader (n : Nat) (h : H)
  /-- the call `boost::asio::async_read` on `inbound_data` (of `n` bytes), completion
  bound to `OnReadData` carrying handler `h` -/
  | asyncReadData (n : Nat) (h : H)
  /-- the call `this->Close()` -/
  | closeCalled
  /-- the shutdown notification fired to the registered listeners -/
  | shutdownSignal
  /-- the call `boost::get<0>(_handler)(data)` -/
  | invoke (h : H) (data : Bytes)
  deriving DecidableEq

/-- The members of `class Connection` that the read path touches. -/
structure Connection where
  /-- public member `id` -/
  id : Nat
  /-- state of the socket -/
  state : ConnState
  inbound_header : Bytes
  inbound_data : Bytes
  deriving DecidableEq

namespace Connection

/-- Modelled from the spec: `Connection::IsOpen` is defined in `Connection.cc`,
which is not among the sources.  The connection is open exactly in state
`Open`. -/
def IsOpen (c : Connection) : Bool :=
  c.state == ConnState.Open

/-- The io service has written the received bytes into `inbound_header`
(the buffer handed to `async_read` by `AsyncRead`). -/
def headerReceived (received : Bytes) (c : Connection) : Connection :=
  { c with inbound_header := bufferAfterRead c.inbound_header received }

/-- The io service has written the received bytes into `inbound_data`
(the buffer handed to `async_read` by `OnReadHeader`). -/
def dataReceived (received : Bytes) (c : Connection) : Connection :=
  { c with inbound_data := bufferAfterRead c.inbound_data received }

/-- Modelled from the spec: `Connection::Close` is defined in `Connection.cc`,
which is not among the sources.  The spec: Close is idempotent, moves the
connection to Closed and fires the shutdown notification to the listeners
(once: a connection already Closed fires nothing). -/
def Close {H : Type} (c : Connection) : Connection × List (Effect H) :=
  if c.state = ConnState.Closed then
    (c, [Effect.closeCalled])
  else
    ({ c with state := ConnState.Closed }, [Effect.closeCalled, Effect.shutdownSignal])

/-- The template member `Connection::AsyncRead(Handler _handler)`, Connection.hh 148-166. -/
def AsyncRead {H : Type} (_handler : H) (c : Connection) : Connection × List (Effect H) :=
  if !c.IsOpen then
    (c, [Effect.gzerr "AsyncRead on a closed socket\n"])
  else
    let c1 := { c with inbound_header := vectorResize HEADER_LENGTH c.inbound_header }
    (c1, [Effect.asyncReadHeader c1.inbound_header.length _handler])

/-- The template member `Connection::OnReadHeader(_e, _handler)`, Connection.hh 175-230.
`ParseHeader` is declared in the header and defined in `Connection.cc`, which
is not among the sources: it is the parameter `ParseHeader`. -/
def OnReadHeader {H : Type} (ParseHeader : Bytes → Nat) (_e : ErrorCode) (_handler : H)
    (c : Connection) : Connection × List (Effect H) :=
  match _e with
  | some message =>
    if message ≠ "End of File" then
      c.Close
    else
      (c, [])
  | none =>
    let header : Bytes := c.inbound_header
    let c1 := { c with inbound_header := [] }
    let inbound_data_size := ParseHeader header
    if inbound_data_size > 0 then
      let c2 := { c1 with inbound_data := vectorResize inbound_data_size c1.inbound_data }
      (c2, [Effect.asyncReadData c2.inbound_data.length _handler])
    else
      (c1, [Effect.gzerr "Header is empty\n", Effect.invoke _handler []])

/-- The template member `Connection::OnReadData(_e, _handler)`, Connection.hh 239-258.
`transport::is_stopped()` is an `extern` function: its result at the time of
the call is the parameter `is_stopped`. -/
def OnReadData {H : Type} (is_stopped : Bool) (_e : ErrorCode) (_handler : H)
    (c : Connection) : Connection × List (Effect H) :=
  let log1 : List (Effect H) :=
    if _e.isSome then [Effect.gzerr "Error Reading data!\n"] else []
  let data : Bytes := c.inbound_data
  let c1 := { c with inbound_data := [] }
  let log2 : List (Effect H) :=
    if data.isEmpty then [Effect.gzerr "OnReadData got empty data!!!\n"] else []
  if !_e.isSome && !is_stopped then
    (c1, log1 ++ log2 ++ [Effect.invoke _handler data])
  else
    (c1, log1 ++ log2)

end Connection

/-- The handler that `PublicationTransport` hands to `Connection::AsyncRead`:
`boost::bind(&PublicationTransport::OnPublish, this, _1)`. -/
inductive Handler where
  | onPublish
  deriving DecidableEq

/-- The protobuf message `msgs::Subscribe`, with the fields that
`PublicationTransport.cc` sets. -/
structure msgs.Subscribe where
  topic : String
  msg_type : String
  host : String
  port : Nat
  deriving DecidableEq

/-- The envelope built by `msgs::Package(type, message)`: the name of the
envelope and the message it carries (kept unserialized; the time stamp is
left out). -/
structure msgs.Packet where
  type : String
  message : msgs.Subscribe
  deriving DecidableEq

/-- Modelled from the spec: `msgs::Package` is not among the sources.  It
wraps a message in the envelope named `type`. -/
def msgs.Package (type : String) (message : msgs.Subscribe) : msgs.Packet :=
  { type := type, message := message }

/-- Observable events of a `PublicationTransport` member, for a type `CB` of
callback function objects.  Connections are named by their public `id`. -/
inductive TEvent (CB : Type) where
  /-- a line written to `std::cout` -/
  | cout (s : String)
  /-- the call `this->connection->AsyncRead(h)` -/
  | asyncReadCall (h : Handler)
  /-- an effect performed by the connection -/
  | conn (e : Effect Handler)
  /-- the call `(this->callback)(data)` -/
  | callback (cb : CB) (data : Bytes)
  /-- the call `TopicManager::Instance()->UpdatePublications(topic, msgType)` -/
  | updatePublications (topic msgType : String)
  /-- the call `this->connection->EnqueueMsg(msg)` -/
  | enqueueMsg (msg : msgs.Packet)
  /-- the call `this->connection->ConnectToShutdown(...)` binding
  `OnConnectionShutdown` -/
  | connectToShutdown
  /-- the call `this->connection->DisconnectShutdown(handle)` -/
  | disconnectShutdown (handle : Option Nat)
  /-- the call `ConnectionManager::Instance()->Unsubscribe(sub)` -/
  | unsubscribe (sub : msgs.Subscribe)
  /-- the call `Cancel()` on the connection with this id -/
  | cancel (connection : Nat)
  /-- the call `ConnectionManager::Instance()->RemoveConnection(p)`, where `p`
  is the null pointer (`none`) or points to the connection with this id -/
  | removeConnection (p : Option Nat)
  deriving DecidableEq

/-- The data members of `class PublicationTransport` used in
`PublicationTransport.cc`.  `connection` is the shared pointer (`none` is the
null pointer) together with the state of the Connection it points to;
`callback` is the `boost::function` (`none` is the empty function). -/
structure PublicationTransport (CB : Type) where
  id : Nat
  topic : String
  msgType : String
  connection : Option Connection
  shutdownConnectionPtr : Option Nat
  callback : Option CB
  deriving DecidableEq

namespace PublicationTransport

variable {CB : Type}

/-- The constructor `PublicationTransport(topic, msgType)`, PublicationTransport.cc 10-16.
`counter` is the value of the static member `counter` before the call; the
result holds the new object, the new value of `counter` and the events.  The
shared pointers and the `boost::function` are default-constructed (null,
empty). -/
def ctor (counter : Nat) (topic msgType : String) :
    PublicationTransport CB × Nat × List (TEvent CB) :=
  ({ id := counter, topic := topic, msgType := msgType, connection := none,
     shutdownConnectionPtr := none, callback := none },
   counter + 1,
   [TEvent.updatePublications topic msgType])

/-- The destructor, PublicationTransport.cc 18-36: the members as the body
leaves them, and the events.  `GetLocalAddress` and `GetLocalPort` are members
of Connection defined in `Connection.cc`, which is not among the sources: they
are parameters. -/
def dtor (GetLocalAddress : Connection → String) (GetLocalPort : Connection → Nat)
    (t : PublicationTransport CB) : PublicationTransport CB × List (TEvent CB) :=
  match t.connection with
  | some c =>
    let sub : msgs.Subscribe :=
      { topic := t.topic, msg_type := t.msgType,
        host := GetLocalAddress c, port := GetLocalPort c }
    let t1 := { t with connection := none }
    ({ t1 with callback := none },
     [TEvent.disconnectShutdown t.shutdownConnectionPtr,
      TEvent.unsubscribe sub,
      TEvent.cancel c.id,
      TEvent.removeConnection (t1.connection.map Connection.id)])
  | none => ({ t with callback := none }, [])

/-- The member `PublicationTransport::Init(conn_)`, PublicationTransport.cc 38-55.
The result is `none` when the body dereferences a null `connection`.
`shutdownHandle` is the handle that `ConnectToShutdown` returns (made by
`EventT::Connect`, which is not among the sources). -/
def Init (GetLocalAddress : Connection → String) (GetLocalPort : Connection → Nat)
    (shutdownHandle : Nat) (conn_ : Option Connection) (t : PublicationTransport CB) :
    Option (PublicationTransport CB × List (TEvent CB)) :=
  match conn_ with
  | none => none
  | some c =>
    let sub : msgs.Subscribe :=
      { topic := t.topic, msg_type := t.msgType,
        host := GetLocalAddress c, port := GetLocalPort c }
    let r := c.AsyncRead Handler.onPublish
    some ({ t with connection := some r.1, shutdownConnectionPtr := some shutdownHandle },
      [TEvent.enqueueMsg (msgs.Package "sub" sub),
       TEvent.asyncReadCall Handler.onPublish] ++ r.2.map TEvent.conn ++
      [TEvent.connectToShutdown])

/-- The member `PublicationTransport::AddCallback(cb_)`, PublicationTransport.cc 62-65. -/
def AddCallback (cb_ : Option CB) (t : PublicationTransport CB) : PublicationTransport CB :=
  { t with callback := cb_ }

/-- The member `PublicationTransport::OnPublish(data)`, PublicationTransport.cc 67-81. -/
def OnPublish (data : Bytes) (t : PublicationTransport CB) :
    PublicationTransport CB × List (TEvent CB) :=
  let out : List (TEvent CB) :=
    [TEvent.cout ("PublicationTransport::OnPublish[" ++ t.topic ++ "]\n")]
  match t.connection with
  | none => (t, out)
  | some c =>
    if c.IsOpen then
      let r := c.AsyncRead Handler.onPublish
      let t1 := { t with connection := some r.1 }
      let ev := out ++ [TEvent.asyncReadCall Handler.onPublish] ++ r.2.map TEvent.conn
      if !data.isEmpty then
        match t1.callback with
        | some cb => (t1, ev ++ [TEvent.callback cb data])
        | none => (t1, ev)
      else
        (t1, ev)
    else
      (t, out)

/-- The member `PublicationTransport::GetConnection()`, PublicationTransport.cc 83-86. -/
def GetConnection (t : PublicationTransport CB) : Option Connection :=
  t.connection

/-- The member `PublicationTransport::GetTopic()`, PublicationTransport.cc 88-91. -/
def GetTopic (t : PublicationTransport CB) : String :=
  t.topic

/-- The member `PublicationTransport::GetMsgType()`, PublicationTransport.cc 93-96. -/
def GetMsgType (t : PublicationTransport CB) : String :=
  t.msgType

/-- The member `PublicationTransport::Fini()`, PublicationTransport.cc 98-103.
The result is `none` when the body dereferences a null `connection`. -/
def Fini (t : PublicationTransport CB) : Option (PublicationTransport CB × List (TEvent CB)) :=
  match t.connection with
  | none => none
  | some c => some ({ t with connection := none }, [TEvent.cancel c.id])

/-- Runs on the transport the handler invocations that a Connection member
performed.  Both `OnReadHeader` and `OnReadData` invoke the handler as their
last statement, so the handler runs on the state the member leaves. -/
def dispatch : List (Effect Handler) → PublicationTransport CB →
    PublicationTransport CB × List (TEvent CB)
  | [], t => (t, [])
  | Effect.invoke Handler.onPublish data :: rest, t =>
    let r1 := t.OnPublish data
    let r2 := dispatch rest r1.1
    (r2.1, TEvent.conn (Effect.invoke Handler.onPublish data) :: r1.2 ++ r2.2)
  | e :: rest, t =>
    let r2 := dispatch rest t
    (r2.1, TEvent.conn e :: r2.2)

/-- The io service completes the header read that the transport armed on the
connection it holds: `received` is written to `inbound_header` and
`OnReadHeader(_e, OnPublish)` runs on the connection.  The step is about the
connection reached through the transport's own pointer; a transport that
holds none is left as it is. -/
def headerReadCompleted (ParseHeader : Bytes → Nat) (_e : ErrorCode) (received : Bytes)
    (t : PublicationTransport CB) : PublicationTransport CB × List (TEvent CB) :=
  match t.connection with
  | none => (t, [])
  | some c =>
    let c0 := c.headerReceived received
    let r := c0.OnReadHeader ParseHeader _e Handler.onPublish
    dispatch r.2 { t with connection := some r.1 }

/-- The io service completes the body read armed by `OnReadHeader` on the
connection the transport holds: `received` is written to `inbound_data` and
`OnReadData(_e, OnPublish)` runs on the connection.  A transport that holds
no connection is left as it is. -/
def dataReadCompleted (is_stopped : Bool) (_e : ErrorCode) (received : Bytes)
    (t : PublicationTransport CB) : PublicationTransport CB × List (TEvent CB) :=
  match t.connection with
  | none => (t, [])
  | some c =>
    let c0 := c.dataReceived received
    let r := c0.OnReadData is_stopped _e Handler.onPublish
    dispatch r.2 { t with connection := some r.1 }

end PublicationTransport

/-- The callback invocations in a trace, in order. -/
def callbacksOf {CB : Type} : List (TEvent CB) → List (CB × Bytes)
  | [] => []
  | TEvent.callback cb data :: rest => (cb, data) :: callbacksOf rest
  | _ :: rest => callbacksOf rest

/-- The header reads started in a trace of transport events, in order. -/
def headerReadsOf {CB : Type} : List (TEvent CB) → List (Nat × Handler)
  | [] => []
  | TEvent.conn (Effect.asyncReadHeader n h) :: rest => (n, h) :: headerReadsOf rest
  | _ :: rest => headerReadsOf rest

/-- The body reads started in a trace of transport events, in order. -/
def dataReadsOf {CB : Type} : List (TEvent CB) → List (Nat × Handler)
  | [] => []
  | TEvent.conn (Effect.asyncReadData n h) :: rest => (n, h) :: dataReadsOf rest
  | _ :: rest => dataReadsOf rest

/-- The calls of `AsyncRead` in a trace of transport events, in order. -/
def asyncReadCallsOf {CB : Type} : List (TEvent CB) → List Handler
  | [] => []
  | TEvent.asyncReadCall h :: rest => h :: asyncReadCallsOf rest
  | _ :: rest => asyncReadCallsOf rest

/-- The envelopes passed to `EnqueueMsg` in a trace, in order. -/
def enqueuedOf {CB : Type} : List (TEvent CB) → List msgs.Packet
  | [] => []
  | TEvent.enqueueMsg msg :: rest => msg :: enqueuedOf rest
  | _ :: rest => enqueuedOf rest

/-- The messages passed to `ConnectionManager::Unsubscribe` in a trace, in order. -/
def unsubscribesOf {CB : Type} : List (TEvent CB) → List msgs.Subscribe
  | [] => []
  | TEvent.unsubscribe sub :: rest => sub :: unsubscribesOf rest
  | _ :: rest => unsubscribesOf rest

/-- The connections (by id) on which `Cancel` is called in a trace, in order. -/
def cancelsOf {CB : Type} : List (TEvent CB) → List Nat
  | [] => []
  | TEvent.cancel c :: rest => c :: cancelsOf rest
  | _ :: rest => cancelsOf rest

/-- The arguments of the calls of `RemoveConnection` in a trace, in order. -/
def removeConnectionsOf {CB : Type} : List (TEvent CB) → List (Option Nat)
  | [] => []
  | TEvent.removeConnection p :: rest => p :: removeConnectionsOf rest
  | _ :: rest => removeConnectionsOf rest

/-- The arguments of the calls of `UpdatePublications` in a trace, in order. -/
def updatePublicationsOf {CB : Type} : List (TEvent CB) → List (String × String)
  | [] => []
  | TEvent.updatePublications topic msgType :: rest =>
    (topic, msgType) :: updatePublicationsOf rest
  | _ :: rest => updatePublicationsOf rest

/-- The handler invocations among the effects of a Connection member. -/
def invocationsOf {H : Type} : List (Effect H) → List (H × Bytes)
  | [] => []
  | Effect.invoke h data :: rest => (h, data) :: invocationsOf rest
  | _ :: rest => invocationsOf rest

/-- The reads (header or body) started among the effects of a Connection member:
the number of bytes asked for. -/
def readsOf {H : Type} : List (Effect H) → List Nat
  | [] => []
  | Effect.asyncReadHeader n _ :: rest => n :: readsOf rest
  | Effect.asyncReadData n _ :: rest => n :: readsOf rest
  | _ :: rest => readsOf rest

/-- The calls of `Close` among the effects of a Connection member. -/
def closeCallsOf {H : Type} : List (Effect H) → Nat
  | [] => 0
  | Effect.closeCalled :: rest => closeCallsOf rest + 1
  | _ :: rest => closeCallsOf rest

/-! ### Node (`gazebo/transport/Node.hh`) -/

/-- A `PublisherPtr`: the publisher handle, named by a number. -/
abbrev PublisherPtr := Nat

/-- A `SubscriberPtr`: the subscriber handle, named by a number. -/
abbrev SubscriberPtr := Nat

/-- The callable wrapped by a `CallbackHelperT<M>`; function pointers and
objects are named by numbers. -/
inductive Callable where
  /-- the callable `boost::bind(_fp, _obj, _1)` of the member-function overload -/
  | boundMember (_fp _obj : Nat)
  /-- the bare function `_fp` of the free-function overload -/
  | freeFunction (_fp : Nat)
  deriving DecidableEq

/-- A `CallbackHelperPtr` pointing to a new `CallbackHelperT<M>(callable)`;
`M` is the name of the message type. -/
structure CallbackHelper where
  M : String
  callable : Callable
  deriving DecidableEq

/-- The typedef `Callback_L` of Node. -/
abbrev Callback_L := List CallbackHelper

/-- The typedef `Callback_M` of Node, a `std::map<std::string, Callback_L>`, as
the list of its entries.  The order of the keys plays no role in the members
modelled here. -/
abbrev Callback_M := List (String × Callback_L)

/-- The lookup `std::map::find`: the list stored under `key`, if there is an entry. -/
def Callback_M.find : Callback_M → String → Option Callback_L
  | [], _ => none
  | (k, l) :: rest, key => if k = key then some l else Callback_M.find rest key

/-- The statement `m[key].push_back(h)`: `operator[]` makes an empty list when
there is no entry under `key`, and `push_back` appends to the list. -/
def Callback_M.pushBack : Callback_M → String → CallbackHelper → Callback_M
  | [], key, h => [(key, [h])]
  | (k, l) :: rest, key, h =>
    if k = key then (k, l ++ [h]) :: rest else (k, l) :: Callback_M.pushBack rest key h

/-- Modelled from the spec: `SubscribeOptions` is declared in
`SubscribeOptions.hh`, which is not among the sources.  It carries the topic,
the subscribing node (named by its id), the name of the message type and the
latching flag. -/
structure SubscribeOptions where
  node : Nat
  topic : String
  msgType : String
  latching : Bool
  deriving DecidableEq

/-- Modelled from the spec: `SubscribeOptions::Init<M>(topic, node, latching)`,
declared in `SubscribeOptions.hh`, which is not among the sources, stores its
arguments and the name of `M`. -/
def SubscribeOptions.Init (M : String) (_topic : String) (_node : Nat) (_latching : Bool) :
    SubscribeOptions :=
  { node := _node, topic := _topic, msgType := M, latching := _latching }

/-- The calls that Node makes on `TopicManager::Instance()`. -/
inductive NEvent where
  /-- the call `Advertise<M>(decodedTopic, _queueLimit, _latch)` -/
  | advertise (M : String) (topic : String) (queueLimit : Nat) (latch : Bool)
  /-- the call `Subscribe(ops)` -/
  | subscribe (ops : SubscribeOptions)
  deriving DecidableEq

/-- The data members of `class Node` that `Advertise` and `Subscribe` use.
The iterator `publishersEnd` is a position in `publishers`. -/
structure Node where
  id : Nat
  topicNamespace : String
  publishers : List PublisherPtr
  publishersEnd : Nat
  callbacks : Callback_M
  deriving DecidableEq

namespace Node

/-- The template member `Node::Advertise<M>(_topic, _queueLimit, _latch)`, Node.hh 89-104.
`DecodeTopicName` (defined in `Node.cc`) and `TopicManager::Advertise`
(`TopicManager.hh`) are not among the sources: they are parameters, the
second one returning the handle or the exception it throws.  The result holds
the node, the calls made and the value returned (or the exception that
leaves the body). -/
def Advertise (DecodeTopicName : Node → String → String)
    (tmAdvertise : String → String → Nat → Bool → Except String PublisherPtr)
    (M : String) (_topic : String) (_queueLimit : Nat) (_latch : Bool) (n : Node) :
    Node × List NEvent × Except String PublisherPtr :=
  let decodedTopic := DecodeTopicName n _topic
  let call := [NEvent.advertise M decodedTopic _queueLimit _latch]
  match tmAdvertise M decodedTopic _queueLimit _latch with
  | Except.error e => (n, call, Except.error e)
  | Except.ok publisher =>
    let publishers := n.publishers ++ [publisher]
    ({ n with publishers := publishers, publishersEnd := publishers.length },
      call, Except.ok publisher)

/-- The template member `Node::Subscribe<M, T>(_topic, _fp, _obj, _latching)`, the
overload for a class method, Node.hh 113-127.  `TopicManager::Subscribe`
(`TopicManager.cc`) is not among the sources: it is the parameter
`tmSubscribe`, returning the handle or the exception it throws.  Its second
argument is this node (which it reaches through the `NodePtr` in `ops`) as
the node is at the moment of the call.  The node in the result is the node as
it is when `TopicManager::Subscribe` is called. -/
def SubscribeMember (DecodeTopicName : Node → String → String)
    (tmSubscribe : SubscribeOptions → Node → Except String SubscriberPtr)
    (M : String) (_topic : String) (_fp _obj : Nat) (_latching : Bool) (n : Node) :
    Node × List NEvent × Except String SubscriberPtr :=
  let decodedTopic := DecodeTopicName n _topic
  let ops := SubscribeOptions.Init M decodedTopic n.id _latching
  let n1 := { n with callbacks :=
    n.callbacks.pushBack decodedTopic { M := M, callable := Callable.boundMember _fp _obj } }
  (n1, [NEvent.subscribe ops], tmSubscribe ops n1)

/-- The template member `Node::Subscribe<M>(_topic, _fp, _latching)`, the overload
for a bare function, Node.hh 135-149. -/
def SubscribeFunction (DecodeTopicName : Node → String → String)
    (tmSubscribe : SubscribeOptions → Node → Except String SubscriberPtr)
    (M : String) (_topic : String) (_fp : Nat) (_latching : Bool) (n : Node) :
    Node × List NEvent × Except String SubscriberPtr :=
  let decodedTopic := DecodeTopicName n _topic
  let ops := SubscribeOptions.Init M decodedTopic n.id _latching
  let n1 := { n with callbacks :=
    n.callbacks.pushBack decodedTopic { M := M, callable := Callable.freeFunction _fp } }
  (n1, [NEvent.subscribe ops], tmSubscribe ops n1)

end Node

/-! ### Write side of a Connection -/

/-- Modelled from the spec: the write side of a Connection (`EnqueueMsg`,
`ProcessWriteQueue` and `OnWrite` are defined in `Connection.cc`, which is not
among the sources).  `writeQueue` holds the framed buffers whose write has not
been started, `inFlight` the writes handed to the socket and not completed,
`wire` the frames flushed to the socket, in the order the peer reads them. -/
structure WriteSide where
  writeQueue : List Bytes
  inFlight : List Bytes
  wire : List Bytes
  deriving DecidableEq

/-- Modelled from the spec: a frame is the length header of the buffer followed
by the buffer.  The encoding of the length in the 8 header bytes is the
parameter `encodeHeader`. -/
def frame (encodeHeader : Nat → Bytes) (buffer : Bytes) : Bytes :=
  encodeHeader buffer.length ++ buffer

namespace WriteSide

/-- A connection on which nothing was enqueued yet. -/
def empty : WriteSide :=
  { writeQueue := [], inFlight := [], wire := [] }

/-- Modelled from the spec: a queued write waits behind any write in flight;
when none is in flight the first queued frame is handed to the socket. -/
def ProcessWriteQueue (w : WriteSide) : WriteSide :=
  match w.inFlight, w.writeQueue with
  | [], f :: rest => { w with writeQueue := rest, inFlight := [f] }
  | _, _ => w

/-- Modelled from the spec: `EnqueueMsg(buffer, force)` appends the frame of
`buffer` to the write queue.  With `force` the call blocks until the bytes
are flushed to the socket (everything pending is flushed, in order);
otherwise the write is asynchronous, behind any write in flight. -/
def EnqueueMsg (encodeHeader : Nat → Bytes) (buffer : Bytes) (force : Bool) (w : WriteSide) :
    WriteSide :=
  let w1 := { w with writeQueue := w.writeQueue ++ [frame encodeHeader buffer] }
  if force then
    { writeQueue := [], inFlight := [], wire := w1.wire ++ w1.inFlight ++ w1.writeQueue }
  else
    w1.ProcessWriteQueue

/-- Modelled from the spec: the completion of the write in flight: its frame
has reached the socket, and the next queued write, if any, is started. -/
def OnWrite (w : WriteSide) : WriteSide :=
  match w.inFlight with
  | [] => w
  | f :: others =>
    ProcessWriteQueue { w with inFlight := others, wire := w.wire ++ [f] }

end WriteSide

/-- What happens on the write side of a connection: a call of `EnqueueMsg`, or
the completion of the write in flight. -/
inductive WriteEvent where
  | enqueue (buffer : Bytes) (force : Bool)
  | written
  deriving DecidableEq

/-- The write side after a sequence of events, taken in order. -/
def WriteSide.run (encodeHeader : Nat → Bytes) : List WriteEvent → WriteSide → WriteSide
  | [], w => w
  | WriteEvent.enqueue buffer force :: rest, w =>
    WriteSide.run encodeHeader rest (w.EnqueueMsg encodeHeader buffer force)
  | WriteEvent.written :: rest, w => WriteSide.run encodeHeader rest w.OnWrite

/-- The frames of the buffers enqueued in a sequence of events, in enqueue order. -/
def framesOf (encodeHeader : Nat → Bytes) : List WriteEvent → List Bytes
  | [] => []
  | WriteEvent.enqueue buffer _ :: rest => frame encodeHeader buffer :: framesOf encodeHeader rest
  | WriteEvent.written :: rest => framesOf encodeHeader rest

/-! ### MapFunctionEnum (`gazebo/rendering/CameraLensPrivate.hh`) -/

namespace CameraLensPrivate

/-- The `std::function<float(float)>` of a variant, by the function it wraps:
`std::sin`, `std::tan`, or the identity lambda. -/
inductive MapFn where
  | sin
  | tan
  | identity
  deriving DecidableEq

/-- The element type of `variants`: name, `math::Vector3` (its three
components, each 0 or 1) and function. -/
abbrev Variant := String × (Int × Int × Int) × MapFn

/-- The exception thrown by the constructor of `MapFunctionEnum`. -/
inductive StdException where
  | invalid_argument (what : String)
  deriving DecidableEq

/-- The class `MapFunctionEnum`: its member `value`. -/
structure MapFunctionEnum where
  value : Variant
  deriving DecidableEq

namespace MapFunctionEnum

/-- The member `variants`, CameraLensPrivate.hh 86-90. -/
def variants : List Variant :=
  [("sin", (1, 0, 0), MapFn.sin),
   ("tan", (0, 1, 0), MapFn.tan),
   ("id", (0, 0, 1), MapFn.identity)]

/-- The loop of the constructor over the remaining items, followed by the
`throw` when no item matches. -/
def search : List Variant → String → Except StdException MapFunctionEnum
  | [], _ => Except.error (StdException.invalid_argument "Unknown function")
  | item :: rest, str =>
    if item.1 = str then Except.ok { value := item } else search rest str

/-- The constructor `MapFunctionEnum(str)`, CameraLensPrivate.hh 51-62. -/
def ctor (str : String) : Except StdException MapFunctionEnum :=
  search variants str

/-- The member `AsString()`, CameraLensPrivate.hh 70. -/
def AsString (m : MapFunctionEnum) : String :=
  m.value.1

/-- The member `AsVector3()`, CameraLensPrivate.hh 66. -/
def AsVector3 (m : MapFunctionEnum) : Int × Int × Int :=
  m.value.2.1

end MapFunctionEnum

end CameraLensPrivate

/-! ### World (`server/World.cc`) -/

/-- The object a `Common*` returned by `GetByName` points to, named by a
number: an `Entity` (the `dynamic_cast<Entity*>` gives it back) or a
`Common` of another class (the cast gives `NULL`). -/
inductive CommonPtr where
  | entity (e : Nat)
  | other (c : Nat)
  deriving DecidableEq

/-- The calls that `World::SetSelectedEntityCB` makes. -/
inductive WEvent where
  /-- the call `Simulator::Instance()->SendMessage(msg)` with a `SelectionMsg` -/
  | sendMessage (id : String) (selected : Bool)
  /-- the call `SetSelected(s)` on an entity -/
  | setSelected (entity : Nat) (s : Bool)
  /-- the call `Events::entitySelectedSignal(this->selectedEntity)` -/
  | entitySelectedSignal (entity : Option Nat)
  deriving DecidableEq

/-- A `WorldState` (declared in `World.hh`, which is not among the sources): its
member `modelPoses`, a `std::map` from model name to pose, as the list of its
entries. -/
structure WorldState (P : Type) where
  modelPoses : List (String × P)
  deriving DecidableEq

/-- The assignment `m[name] = pose` on a `std::map` given by its entries: the
entry under `name` is overwritten, or made when there is none. -/
def mapAssign {P : Type} : List (String × P) → String → P → List (String × P)
  | [], name, pose => [(name, pose)]
  | (k, v) :: rest, name, pose =>
    if k = name then (k, pose) :: rest else (k, v) :: mapAssign rest name pose

/-- The lookup `m.find(name)` on a `std::map` given by its entries: the value
stored under `name`, if there is an entry. -/
def mapFind {P : Type} : List (String × P) → String → Option P
  | [], _ => none
  | (k, v) :: rest, name => if k = name then some v else mapFind rest name

/-- The pose that saving the models `models` (each with its name and pose, in
the order of the vector) records under `name`: the pose of the last model of
that name, and nothing when no model has that name. -/
def poseOfModel {P : Type} : List (String × P) → String → Option P
  | [], _ => none
  | (n, pose) :: rest, name =>
    match poseOfModel rest name with
    | some later => some later
    | none => if n = name then some pose else none

/-- The assignment `ws->modelPoses[name] = pose`. -/
def WorldState.setPose {P : Type} (ws : WorldState P) (name : String) (pose : P) :
    WorldState P :=
  { modelPoses := mapAssign ws.modelPoses name pose }

/-- The call `std::deque::resize(n)`: keeps the first `n` elements and pads with
default-constructed elements up to length `n`. -/
def dequeResize {α : Type} (n : Nat) (dflt : α) (d : List α) : List α :=
  d.take n ++ List.replicate (n - d.length) dflt

/-- The data members of `class World` used by the members modelled here.
`selectedEntity` is the `Entity*` (`none` is `NULL`); `models` gives for each
`Model*` its `GetName()` and `GetRelativePose()`; the three iterators are
positions in `worldStates`, `worldStates.end()` being its length. -/
structure World (P : Type) where
  selectedEntity : Option Nat
  models : List (String × P)
  worldStates : List (WorldState P)
  worldStatesInsertIter : Nat
  worldStatesEndIter : Nat
  worldStatesCurrentIter : Nat
  deriving DecidableEq

namespace World

variable {P : Type}

/-- The last four statements of `World::Load`, World.cc 211-214, with
`saveStateBufferSize` the value of `**this->saveStateBufferSizeP`. -/
def Load_worldStates (saveStateBufferSize : Nat) (w : World P) : World P :=
  { w with
    worldStates := dequeResize saveStateBufferSize { modelPoses := [] } w.worldStates
    worldStatesInsertIter := 0
    worldStatesEndIter := 0
    worldStatesCurrentIter := 0 }

/-- The member `World::SaveState()`, World.cc 801-826.  The result is `none` when
`worldStatesInsertIter` cannot be dereferenced (it is at `end()` or beyond). -/
def SaveState (w : World P) : Option (World P) :=
  match w.worldStates[w.worldStatesInsertIter]? with
  | none => none
  | some ws0 =>
    let ws := w.models.foldl (fun acc m => acc.setPose m.1 m.2) ws0
    let states := w.worldStates.set w.worldStatesInsertIter ws
    let inserted := w.worldStatesInsertIter + 1
    let insertIter := if inserted = states.length then 0 else inserted
    if insertIter = w.worldStatesEndIter then
      let ended := w.worldStatesEndIter + 1
      some { w with
        worldStates := states
        worldStatesInsertIter := insertIter
        worldStatesEndIter := if ended = states.length then 0 else ended }
    else
      some { w with worldStates := states, worldStatesInsertIter := insertIter }

/-- The world after `k` consecutive calls of `SaveState()`. -/
def SaveStates : Nat → World P → Option (World P)
  | 0, w => some w
  | k + 1, w => (SaveStates k w).bind SaveState

/-- The member `World::SetSelectedEntityCB(name)`, World.cc 896-929.
`GetByName` (which asks `rootElement`) and `Entity::GetCompleteScopedName` are
not among the sources: they are parameters. -/
def SetSelectedEntityCB (GetByName : String → Option CommonPtr)
    (GetCompleteScopedName : Nat → String) (name : String) (w : World P) :
    World P × List WEvent :=
  let common := GetByName name
  let ent : Option Nat :=
    match common with
    | some (CommonPtr.entity e) => some e
    | _ => none
  let unselect : List WEvent :=
    match w.selectedEntity with
    | some sel => [WEvent.sendMessage (GetCompleteScopedName sel) false,
                   WEvent.setSelected sel false]
    | none => []
  match ent with
  | some e =>
    if w.selectedEntity ≠ some e then
      ({ w with selectedEntity := some e },
        unselect ++ [WEvent.setSelected e true,
                     WEvent.sendMessage (GetCompleteScopedName e) true,
                     WEvent.entitySelectedSignal (some e)])
    else
      ({ w with selectedEntity := none }, unselect ++ [WEvent.entitySelectedSignal none])
  | none =>
    ({ w with selectedEntity := none }, unselect ++ [WEvent.entitySelectedSignal none])

/-- The member `World::GetSelectedEntity()`, World.cc 932-936. -/
def GetSelectedEntity (w : World P) : Option Nat :=
  w.selectedEntity

end World

/-- Which entities count as selected after the `SetSelected` calls of a trace,
given which ones did before: an entity is selected when the last
`SetSelected` call on it passed `true`. -/
def selectedAfter : List WEvent → (Nat → Bool) → Nat → Bool
  | [], selected => selected
  | WEvent.setSelected e s :: rest, selected =>
    selectedAfter rest (fun x => if x = e then s else selected x)
  | _ :: rest, selected => selectedAfter rest selected

/-! ### Machine integers -/

/-- The number of values of an `unsigned int`: arithmetic on `unsigned int` is modulo
this number. -/
def UINT_RANGE : Nat := 4294967296

/-- The conversion `static_cast<int>(u)` of an `unsigned int` (two's complement). -/
def toInt (u : Nat) : Int :=
  if u % UINT_RANGE < 2147483648 then ((u % UINT_RANGE : Nat) : Int)
  else ((u % UINT_RANGE : Nat) : Int) - 4294967296

/-- The conversion of an `int` to `unsigned int`, as the usual arithmetic
conversions do when an `int` meets an `unsigned int`. -/
def toUnsigned (i : Int) : Nat :=
  (i % 4294967296).toNat

/-! ### ServerFixture::ImageCompare (`test/ServerFixture.hh`) -/

namespace ServerFixture

/-- The body of the inner loop of `ImageCompare` at row `y` and column `x`,
ServerFixture.hh 359-367, on the running `_diffMax` and `_diffSum`.  The
difference `a - b` is computed in `unsigned int`; `fabs` converts that value
to `double` and back without changing it.  The result is `none` when an image
is read outside its bytes. -/
def compareByte (_imageA _imageB : Bytes) (_width _depth : Nat) (y x : Nat)
    (acc : Nat × Nat) : Option (Nat × Nat) :=
  let index := ((y * _width % UINT_RANGE) * _depth % UINT_RANGE + x) % UINT_RANGE
  match _imageA[index]?, _imageB[index]? with
  | some a, some b =>
    let diff := (a.val + UINT_RANGE - b.val) % UINT_RANGE
    let diffMax := if diff > acc.1 then diff else acc.1
    some (diffMax, (acc.2 + diff) % UINT_RANGE)
  | _, _ => none

/-- The inner loop of `ImageCompare` over `x = 0 .. _width*_depth - 1` at row `y`. -/
def compareRow (_imageA _imageB : Bytes) (_width _depth : Nat) (y : Nat)
    (acc : Option (Nat × Nat)) : Option (Nat × Nat) :=
  (List.range (_width * _depth % UINT_RANGE)).foldl
    (fun r x => r.bind (compareByte _imageA _imageB _width _depth y x)) acc

/-- The member `ServerFixture::ImageCompare`, ServerFixture.hh 344-370: the values
left in `_diffMax`, `_diffSum` and `_diffAvg` (the quotient of the unsigned
division, before its conversion to `double`).  The result is `none` when an
image is read outside its bytes or the division is by zero. -/
def ImageCompare (_imageA _imageB : Bytes) (_width _height _depth : Nat) :
    Option (Nat × Nat × Nat) :=
  match (List.range _height).foldl
      (fun r y => compareRow _imageA _imageB _width _depth y r) (some (0, 0)) with
  | none => none
  | some (diffMax, diffSum) =>
    let count := (_height * _width % UINT_RANGE) * _depth % UINT_RANGE
    if count = 0 then none else some (diffMax, diffSum, diffSum / count)

/-- The absolute difference of two bytes, a value between 0 and 255. -/
def absDiff (a b : Byte) : Nat :=
  if a.val ≥ b.val then a.val - b.val else b.val - a.val

/-- What the claim says `ImageCompare` leaves in `_diffMax` and `_diffSum`: the
maximum and the sum of the absolute differences over all byte positions. -/
def claimedDiffMaxSum (_imageA _imageB : Bytes) : Nat × Nat :=
  (((_imageA.zip _imageB).map fun ab => absDiff ab.1 ab.2).foldl max 0,
   ((_imageA.zip _imageB).map fun ab => absDiff ab.1 ab.2).sum)

end ServerFixture

/-! ### SimulationInterface::ProcessMessage (`player/SimulationInterface.cc`) -/

namespace SimulationInterface

/-- The pose `model_pose` of the simulation interface data, over a type `R` of
coordinates. -/
structure Pose (R : Type) where
  x : R
  y : R
  z : R
  roll : R
  pitch : R
  yaw : R
  deriving DecidableEq

/-- The struct `player_pose3d_t` of a `player_simulation_pose3d_req_t`. -/
structure player_pose3d_t (R : Type) where
  px : R
  py : R
  pz : R
  proll : R
  ppitch : R
  pyaw : R
  deriving DecidableEq

/-- The struct `player_pose2d_t` of a `player_simulation_pose2d_req_t`. -/
structure player_pose2d_t (R : Type) where
  px : R
  py : R
  pa : R
  deriving DecidableEq

/-- The fields of `this->iface->data` that `ProcessMessage` uses. -/
structure SimulationData (R : Type) where
  model_name : String
  model_req : String
  model_pose : Pose R
  deriving DecidableEq

/-- The message handed to `ProcessMessage`, by the request that
`Message::MatchMessage` matches, with the request struct that `data` points
to. -/
inductive Request (R : Type) where
  | SET_POSE3D (name : String) (pose : player_pose3d_t R)
  | SET_POSE2D (name : String) (pose : player_pose2d_t R)
  | GET_POSE3D (name : String) (pose : player_pose3d_t R)
  | other
  deriving DecidableEq

/-- The calls `this->driver->Publish(...)` with `PLAYER_MSGTYPE_RESP_ACK`. -/
inductive Published (R : Type) where
  | ackSetPose3d
  | ackSetPose2d
  /-- the acknowledgement of `PLAYER_SIMULATION_REQ_GET_POSE3D`, carrying `*req` -/
  | ackGetPose3d (name : String) (pose : player_pose3d_t R)
  deriving DecidableEq

/-- The loop `while (!response)` of `ProcessMessage`, SimulationInterface.cc 128-134.
The data are shared with the simulator: `gazebo` lists what the simulator
does to them before each time the lock is taken.  The result is the data read
when the response is seen and the rest of `gazebo`, or `none` when `gazebo`
ends while the loop is still waiting. -/
def waitForResponse {R : Type} :
    List (SimulationData R → SimulationData R) → SimulationData R →
    Option (SimulationData R × List (SimulationData R → SimulationData R))
  | [], _ => none
  | g :: rest, data =>
    if (g data).model_name = "" then some (g data, rest) else waitForResponse rest (g data)

/-- The member `SimulationInterface::ProcessMessage`, SimulationInterface.cc 62-150:
the interface data it leaves and the messages it publishes (it returns 0).
The result is `none` while the wait for the simulator has not ended. -/
def ProcessMessage {R : Type} (gazebo : List (SimulationData R → SimulationData R))
    (request : Request R) (data : SimulationData R) :
    Option (SimulationData R × List (Published R)) :=
  match request with
  | Request.SET_POSE3D name pose =>
    some ({ model_name := name, model_req := "set_pose3d",
            model_pose := { x := pose.px, y := pose.py, z := pose.pz,
                            roll := pose.proll, pitch := pose.ppitch, yaw := pose.pyaw } },
          [Published.ackSetPose3d])
  | Request.SET_POSE2D name pose =>
    some ({ model_name := name, model_req := "set_pose2d",
            model_pose := { data.model_pose with x := pose.px, y := pose.py, yaw := pose.pa } },
          [Published.ackSetPose2d])
  | Request.GET_POSE3D name _ =>
    match waitForResponse gazebo { data with model_name := name, model_req := "get_pose" } with
    | none => none
    | some (seen, rest) =>
      let final := match rest with
        | [] => seen
        | g :: _ => g seen
      some (final,
        [Published.ackGetPose3d name
          { px := final.model_pose.x, py := final.model_pose.y, pz := final.model_pose.y,
            proll := final.model_pose.roll, ppitch := final.model_pose.pitch,
            pyaw := final.model_pose.yaw }])
  | Request.other => some (data, [])

end SimulationInterface

/-! ### Distortion (`gazebo/rendering/Distortion.cc`) -/

namespace Distortion

/-- An `ignition::math::Vector2d`, over a type `R` standing for `double`. -/
structure Vector2d (R : Type) where
  X : R
  Y : R
  deriving DecidableEq

/-- What `SetCamera` reads from the camera: `ImageWidth()` and `ImageHeight()`,
both `unsigned int`. -/
structure Camera where
  ImageWidth : Nat
  ImageHeight : Nat
  deriving DecidableEq

/-- The members of `DistortionPrivate` that the two members modelled here use. -/
structure DistortionPrivate (R : Type) where
  distortionTexWidth : Nat
  distortionTexHeight : Nat
  distortionMap : List (Vector2d R)
  deriving DecidableEq

/-- The member `Distortion::DistortionMapValueClamped(x, y)`, Distortion.cc 73-84.
`minusOne` is the `double` -1.  The index `y*distortionTexWidth+x` is computed
in `unsigned int`; the result is `none` when it is not an index of the map. -/
def DistortionMapValueClamped {R : Type} (minusOne : R) (d : DistortionPrivate R)
    (x y : Int) : Option (Vector2d R) :=
  if x < 0 ∨ x ≥ toInt d.distortionTexWidth ∨
      y < 0 ∨ y ≥ toInt d.distortionTexHeight then
    some { X := minusOne, Y := minusOne }
  else
    d.distortionMap[((toUnsigned y * d.distortionTexWidth) % UINT_RANGE + toUnsigned x)
      % UINT_RANGE]?

/-- The member `Distortion::SetCamera(_camera)`, Distortion.cc 86-110 and the loops
that follow: the members it leaves and the lines written to `gzerr`.  After
the map is resized, two loops fill it: the first one writes -1 everywhere,
the second one overwrites some entries with values computed in floating
point by `Distort`; `filled i` is the value they leave at index `i`.  The
set-up of the Ogre texture that follows does not write these members.  The
result is `none` when `distortionTexWidth * distortionTexHeight` does not fit
an `unsigned int` (an image of side 0, where `texSide - 1` wraps, or of side
above 65536): the map then has fewer entries than there are positions, and
the loops that follow index it at `i*distortionTexWidth+j` for every
position, outside its entries. -/
def SetCamera {R : Type} (filled : Nat → Vector2d R) (_camera : Option Camera)
    (d : DistortionPrivate R) : Option (DistortionPrivate R × List String) :=
  match _camera with
  | none => some (d, ["Unable to apply distortion, camera is NULL"])
  | some camera =>
    let texSide :=
      if camera.ImageHeight > camera.ImageWidth then camera.ImageHeight else camera.ImageWidth
    let distortionTexWidth := (texSide + UINT_RANGE - 1) % UINT_RANGE
    let distortionTexHeight := (texSide + UINT_RANGE - 1) % UINT_RANGE
    let imageSize := distortionTexWidth * distortionTexHeight % UINT_RANGE
    if distortionTexWidth * distortionTexHeight < UINT_RANGE then
      some ({ distortionTexWidth := distortionTexWidth,
              distortionTexHeight := distortionTexHeight,
              distortionMap := (List.range imageSize).map filled }, [])
    else
      none

end Distortion

/-! ### CylinderMaker (`src/gui/CylinderMaker.cc`) -/

namespace CylinderMaker

/-- A `math::Vector3`, over a type `R` standing for `double`. -/
structure Vector3 (R : Type) where
  x : R
  y : R
  z : R
  deriving DecidableEq

/-- A `math::Vector2i`. -/
structure Vector2i where
  x : Int
  y : Int
  deriving DecidableEq

/-- The fields of a `common::MouseEvent` that the maker reads. -/
structure MouseEvent where
  pos : Vector2i
  pressPos : Vector2i
  deriving DecidableEq

/-- The values of `msgs::Visual::Action` that the maker sets. -/
inductive Action where
  | UPDATE
  | DELETE
  deriving DecidableEq

/-- The fields of the `msgs::Visual` message `visualMsg` that the members modelled
here read or write (`action` is unset, `none`, until `set_action`; the time
stamp written by `msgs::Stamp` is left out). -/
structure Visual (R : Type) where
  str_id : String
  action : Option Action
  position : Vector3 R
  scale : Vector3 R
  deriving DecidableEq

/-- The `msgs::Factory` message built by `CreateTheEntity`: the id given to
`msgs::Init` and the `xml` field. -/
structure Factory where
  str_id : String
  xml : String
  deriving DecidableEq

/-- The calls that leave the maker. -/
inductive GEvent (R : Type) where
  /-- the call `this->visPub->Publish(*this->visualMsg)` -/
  | visPublish (msg : Visual R)
  /-- the call `this->makerPub->Publish(msg)` -/
  | makerPublish (msg : Factory)
  /-- the call `gui::Events::moveModeSignal(b)` -/
  | moveModeSignal (b : Bool)
  deriving DecidableEq

/-- What the maker uses and is not among the sources: the arithmetic of
`double` (`ofInt` is the conversion of an integer, `half` and `hundredth` are
the literals `.5` and `0.01`, `format` is `operator<<` on a stream),
`UserCamera::GetWorldPointOnPlane`, `EntityMaker::GetSnappedPoint` and
`math::Vector3::Distance`. -/
structure Env (R : Type) where
  ofInt : Int → R
  mul : R → R → R
  div : R → R → R
  half : R
  hundredth : R
  format : R → String
  GetWorldPointOnPlane : Int → Int → Vector3 R → R → Vector3 R
  GetSnappedPoint : Vector3 R → Vector3 R
  Distance : Vector3 R → Vector3 R → R

/-- The data members of `class CylinderMaker` (and of its base `EntityMaker`) that
the members modelled here use; `camera` is the `UserCameraPtr` (`none` is
null). -/
structure Maker (R : Type) where
  state : Int
  camera : Option Nat
  mousePushPos : Vector2i
  visualMsg : Visual R
  deriving DecidableEq

variable {R : Type}

/-- The member `CylinderMaker::Start(camera)`, CylinderMaker.cc 52-61.  `counter` is
the static member before the call; the result holds its new value. -/
def Start (camera : Option Nat) (counter : Nat) (m : Maker R) : Maker R × Nat :=
  ({ m with
      camera := camera
      visualMsg := { m.visualMsg with str_id := "user_cylinder_" ++ toString counter }
      state := 1 },
   (counter + 1) % UINT_RANGE)

/-- The member `CylinderMaker::Stop()`, CylinderMaker.cc 63-71. -/
def Stop (m : Maker R) : Maker R × List (GEvent R) :=
  ({ m with visualMsg := { m.visualMsg with action := some Action.UPDATE }, state := 0 },
   [GEvent.visPublish { m.visualMsg with action := some Action.DELETE },
    GEvent.moveModeSignal true])

/-- The member `CylinderMaker::IsActive()`, CylinderMaker.cc 73-76. -/
def IsActive (m : Maker R) : Bool :=
  decide (m.state > 0)

/-- The member `CylinderMaker::OnMousePush(event)`, CylinderMaker.cc 78-84. -/
def OnMousePush (event : MouseEvent) (m : Maker R) : Maker R :=
  if m.state = 0 then m else { m with mousePushPos := event.pressPos }

/-- The member `CylinderMaker::CreateTheEntity()`, CylinderMaker.cc 151-196. -/
def CreateTheEntity (env : Env R) (m : Maker R) : Maker R × List (GEvent R) :=
  let newModelStr : String :=
    "<gazebo version='1.0'>    <model name='" ++ m.visualMsg.str_id ++
    "_model'>      <origin pose='" ++ env.format m.visualMsg.position.x ++ " "
      ++ env.format m.visualMsg.position.y ++ " "
      ++ env.format m.visualMsg.position.z ++
    " 0 0 0'/>      <link name='body'>        <inertial mass='1.0'>            <inertia ixx='1' ixy='0' ixz='0' iyy='1' iyz='0' izz='1'/>        </inertial>        <collision name='geom'>          <geometry>            <cylinder radius='"
      ++ env.format (env.mul m.visualMsg.scale.x env.half) ++
    "'                      length='" ++ env.format m.visualMsg.scale.z ++
    "'/>          </geometry>        </collision>        <visual cast_shadows='true'>          <geometry>            <cylinder radius='"
      ++ env.format (env.mul m.visualMsg.scale.x env.half) ++
    "'                      length='" ++ env.format m.visualMsg.scale.z ++
    "'/>          </geometry>          <material script='Gazebo/Grey'/>        </visual>      </link>    </model>    </gazebo>"
  let msg : Factory := { str_id := "new cylinder", xml := newModelStr }
  let visualMsg := { m.visualMsg with action := some Action.DELETE }
  ({ m with visualMsg := visualMsg },
   [GEvent.visPublish visualMsg, GEvent.makerPublish msg])

/-- The member `CylinderMaker::OnMouseRelease(event)`, CylinderMaker.cc 86-98. -/
def OnMouseRelease (env : Env R) (m : Maker R) : Maker R × List (GEvent R) :=
  if m.state = 0 then (m, [])
  else
    let m1 := { m with state := m.state + 1 }
    if m1.state = 3 then
      let created := CreateTheEntity env m1
      let stopped := Stop created.1
      (stopped.1, created.2 ++ stopped.2)
    else (m1, [])

/-- The member `CylinderMaker::OnMouseDrag(event)`, CylinderMaker.cc 100-149.  The
result is `none` when `this->camera` is dereferenced while null. -/
def OnMouseDrag (env : Env R) (event : MouseEvent) (m : Maker R) :
    Option (Maker R × List (GEvent R)) :=
  if m.state = 0 then some (m, [])
  else
    let norm : Vector3 R :=
      if m.state = 1 then { x := env.ofInt 0, y := env.ofInt 0, z := env.ofInt 1 }
      else if m.state = 2 then { x := env.ofInt 1, y := env.ofInt 0, z := env.ofInt 0 }
      else { x := env.ofInt 0, y := env.ofInt 0, z := env.ofInt 0 }
    match m.camera with
    | none => none
    | some _ =>
      let p1 := env.GetSnappedPoint
        (env.GetWorldPointOnPlane m.mousePushPos.x m.mousePushPos.y norm (env.ofInt 0))
      let p2 := env.GetSnappedPoint
        (env.GetWorldPointOnPlane event.pos.x event.pos.y norm (env.ofInt 0))
      let position1 := if m.state = 1 then p1 else m.visualMsg.position
      let p : Vector3 R := position1
      let dist := env.Distance p1 p2
      let scale : Vector3 R :=
        if m.state = 1 then
          { x := env.mul dist (env.ofInt 2), y := env.mul dist (env.ofInt 2),
            z := env.hundredth }
        else
          { m.visualMsg.scale with
            z := env.mul (env.ofInt (m.mousePushPos.y - event.pos.y)) env.hundredth }
      let p : Vector3 R :=
        if m.state = 1 then p else { p with z := env.div scale.z (env.ofInt 2) }
      let visualMsg := { m.visualMsg with position := p, scale := scale }
      some ({ m with visualMsg := visualMsg }, [GEvent.visPublish visualMsg])

end CylinderMaker

/-- The factory messages published in a trace of the maker, in order. -/
def makerPublishesOf {R : Type} : List (CylinderMaker.GEvent R) → List CylinderMaker.Factory
  | [] => []
  | CylinderMaker.GEvent.makerPublish msg :: rest => msg :: makerPublishesOf rest
  | _ :: rest => makerPublishesOf rest

/-! ### Sample values -/

/-- An environment for the examples, with integers standing for `double`:
`half` and `hundredth` are 0 and 1, points on the plane are the pixel
coordinates, the distance is 7. -/
def sampleEnv : CylinderMaker.Env Int :=
  { ofInt := fun i => i, mul := fun a b => a * b, div := fun a b => a / b,
    half := 0, hundredth := 1, format := fun _ => "0",
    GetWorldPointOnPlane := fun x y _ _ => { x := x, y := y, z := 0 },
    GetSnappedPoint := fun v => v,
    Distance := fun _ _ => 7 }

/-- A maker for the examples, as the constructor leaves it (state 0). -/
def sampleMaker : CylinderMaker.Maker Int :=
  { state := 0, camera := none, mousePushPos := { x := 0, y := 0 },
    visualMsg := { str_id := "", action := none,
                   position := { x := 0, y := 0, z := 0 },
                   scale := { x := 0, y := 0, z := 0 } } }

/-- The simulator of the examples answers a request at once: it clears
`model_name` and writes the pose 1, 2, 3, 4, 5, 6. -/
def sampleGazebo (data : SimulationInterface.SimulationData Int) :
    SimulationInterface.SimulationData Int :=
  { data with model_name := "",
              model_pose := { x := 1, y := 2, z := 3, roll := 4, pitch := 5, yaw := 6 } }

/-- Interface data for the examples, before any request. -/
def sampleSimulationData : SimulationInterface.SimulationData Int :=
  { model_name := "", model_req := "",
    model_pose := { x := 0, y := 0, z := 0, roll := 0, pitch := 0, yaw := 0 } }

/-- The values in the distortion map of the examples: entry `i` is `(i, i + 100)`. -/
def sampleFilled (i : Nat) : Distortion.Vector2d Int :=
  { X := i, Y := i + 100 }

/-- A distortion map for the examples in which the second loop of `SetCamera`
overwrote no entry: every entry is still the `(-1, -1)` of the first loop. -/
def sampleUnfilled (_i : Nat) : Distortion.Vector2d Int :=
  { X := -1, Y := -1 }


/-- A world in which entity 1 is selected, with two models and no state buffer. -/
def sampleWorld : World Int :=
  { selectedEntity := some 1, models := [("box", 4), ("ball", 5)], worldStates := [],
    worldStatesInsertIter := 0, worldStatesEndIter := 0, worldStatesCurrentIter := 0 }

/-- A `GetByName` for the examples: "box" is entity 1, "ball" is entity 2,
"light" is a `Common` that is no entity, nothing else exists. -/
def sampleGetByName (name : String) : Option CommonPtr :=
  if name = "box" then some (CommonPtr.entity 1)
  else if name = "ball" then some (CommonPtr.entity 2)
  else if name = "light" then some (CommonPtr.other 3)
  else none

/-- A `GetCompleteScopedName` for the examples. -/
def sampleScopedName (e : Nat) : String :=
  if e = 1 then "box" else "ball"

/-- The selection flags for the examples: only entity 1 is selected. -/
def sampleSelected (e : Nat) : Bool := e == 1


/-- A node with one publisher and one handler under the topic "/gazebo/a". -/
def sampleNode : Node :=
  { id := 3, topicNamespace := "gazebo", publishers := [10], publishersEnd := 1,
    callbacks := [("/gazebo/a", [{ M := "msgs.Pose", callable := Callable.freeFunction 1 }])] }

/-- A topic decoder for the examples: the namespace of the node is put in front. -/
def sampleDecodeTopicName (n : Node) (_topic : String) : String :=
  "/" ++ n.topicNamespace ++ "/" ++ _topic

/-- A `TopicManager::Advertise` for the examples: it returns the handle 11. -/
def sampleTmAdvertise (_M _topic : String) (_queueLimit : Nat) (_latch : Bool) :
    Except String PublisherPtr :=
  Except.ok 11

/-- A `TopicManager::Subscribe` for the examples: it returns the handle 21. -/
def sampleTmSubscribe (_ops : SubscribeOptions) (_node : Node) :
    Except String SubscriberPtr :=
  Except.ok 21

/-- A `TopicManager::Subscribe` for the examples that looks at the node: the
handle it returns is the number of handlers that the node has under the topic
of the options when the call is made. -/
def sampleTmSubscribeCounts (ops : SubscribeOptions) (node : Node) :
    Except String SubscriberPtr :=
  Except.ok ((node.callbacks.find ops.topic).getD []).length

/-- A header encoding for the examples: 8 bytes, the last one holding the length
(taken modulo 256). -/
def sampleEncodeHeader (n : Nat) : Bytes := [0, 0, 0, 0, 0, 0, 0, Fin.ofNat n]

/-- A `TopicManager::Subscribe` for the examples that fails: it throws
"TypeMismatch". -/
def sampleTmSubscribeFails (_ops : SubscribeOptions) (_node : Node) :
    Except String SubscriberPtr :=
  Except.error "TypeMismatch"

/-- An open connection with empty buffers, used to instantiate the theorems. -/
def sampleConnection : Connection :=
  { id := 1, state := ConnState.Open, inbound_header := [], inbound_data := [] }

/-- A transport holding `sampleConnection`, with no callback registered yet. -/
def sampleTransport : PublicationTransport Nat :=
  { id := 0, topic := "/t", msgType := "m", connection := some sampleConnection,
    shutdownConnectionPtr := none, callback := none }

/-- A local address for the examples: every connection is bound to the loopback
address. -/
def sampleLocalAddress (_c : Connection) : String := "127.0.0.1"

/-- A local port for the examples: 11345 plus the id of the connection. -/
def sampleLocalPort (c : Connection) : Nat := 11345 + c.id

/-- A header parser for the examples: the value of the last header byte. -/
def sampleParseHeader (header : Bytes) : Nat :=
  match header.getLast? with
  | some b => b.val
  | none => 0

/-! ## Theorems -/

section Helpers

theorem vectorResize_length (n : Nat) (v : Bytes) : (vectorResize n v).length = n := by
  unfold vectorResize
  simp only [List.length_append, List.length_take, List.length_replicate]
  omega

theorem bufferAfterRead_full (buf received : Bytes) (h : received.length = buf.length) :
    bufferAfterRead buf received = received := by
  unfold bufferAfterRead
  have h1 : List.take buf.length received = received := List.take_of_length_le (by omega)
  have h2 : List.drop received.length buf = [] := List.drop_of_length_le (by omega)
  rw [h1, h2, List.append_nil]

theorem callbacksOf_append {CB : Type} (xs ys : List (TEvent CB)) :
    callbacksOf (xs ++ ys) = callbacksOf xs ++ callbacksOf ys := by
  induction xs with
  | nil => rfl
  | cons x xs ih => cases x <;> simp [callbacksOf, ih]

theorem AsyncRead_open {H : Type} (h : H) (c : Connection) (ho : c.IsOpen = true) :
    c.AsyncRead h =
      ({ c with inbound_header := vectorResize HEADER_LENGTH c.inbound_header },
        [Effect.asyncReadHeader 8 h]) := by
  simp [Connection.AsyncRead, ho, vectorResize_length, HEADER_LENGTH]

theorem OnPublish_open {CB : Type} (t : PublicationTransport CB) (c : Connection) (d : Bytes)
    (hc : t.connection = some c) (ho : c.IsOpen = true) :
    t.OnPublish d =
      ({ t with connection :=
            some { c with inbound_header := vectorResize HEADER_LENGTH c.inbound_header } },
        [TEvent.cout ("PublicationTransport::OnPublish[" ++ t.topic ++ "]\n"),
          TEvent.asyncReadCall Handler.onPublish,
          TEvent.conn (Effect.asyncReadHeader 8 Handler.onPublish)] ++
        (if d = [] then [] else
          match t.callback with
          | some cb => [TEvent.callback cb d]
          | none => [])) := by
  unfold PublicationTransport.OnPublish
  simp only [hc, ho, if_true, AsyncRead_open _ c ho]
  cases d with
  | nil => simp
  | cons x xs => cases hcb : t.callback <;> simp

theorem callbacksOf_OnPublish_open {CB : Type} (t : PublicationTransport CB) (c : Connection)
    (d : Bytes) (hc : t.connection = some c) (ho : c.IsOpen = true) (hd : d ≠ []) :
    callbacksOf (t.OnPublish d).2 = t.callback.toList.map fun cb => (cb, d) := by
  rw [OnPublish_open t c d hc ho]
  cases hcb : t.callback <;> simp [hd, callbacksOf]

theorem headerReadCompleted_zero {CB : Type} (ParseHeader : Bytes → Nat)
    (t : PublicationTransport CB) (c : Connection) (received : Bytes)
    (hc : t.connection = some c) (ho : c.IsOpen = true)
    (hz : ParseHeader (bufferAfterRead c.inbound_header received) = 0) :
    t.headerReadCompleted ParseHeader none received =
      ({ t with connection :=
            some ({ c with inbound_header := vectorResize HEADER_LENGTH [] }) },
        [TEvent.conn (Effect.gzerr "Header is empty\n"),
          TEvent.conn (Effect.invoke Handler.onPublish []),
          TEvent.cout ("PublicationTransport::OnPublish[" ++ t.topic ++ "]\n"),
          TEvent.asyncReadCall Handler.onPublish,
          TEvent.conn (Effect.asyncReadHeader 8 Handler.onPublish)]) := by
  have ho1 : ({ c with inbound_header := ([] : Bytes) } : Connection).IsOpen = true := ho
  have hpub := OnPublish_open
    ({ t with connection := some ({ c with inbound_header := [] }) }) _ [] rfl ho1
  simp [PublicationTransport.headerReadCompleted, hc, Connection.headerReceived,
    Connection.OnReadHeader, hz, PublicationTransport.dispatch, hpub]

theorem headerReadCompleted_pos {CB : Type} (ParseHeader : Bytes → Nat)
    (t : PublicationTransport CB) (c : Connection) (received : Bytes)
    (hc : t.connection = some c)
    (hpos : 0 < ParseHeader (bufferAfterRead c.inbound_header received)) :
    t.headerReadCompleted ParseHeader none received =
      ({ t with connection :=
            some ({ c with
              inbound_header := []
              inbound_data := vectorResize
                (ParseHeader (bufferAfterRead c.inbound_header received)) c.inbound_data }) },
        [TEvent.conn (Effect.asyncReadData
          (ParseHeader (bufferAfterRead c.inbound_header received)) Handler.onPublish)]) := by
  simp [PublicationTransport.headerReadCompleted, hc, Connection.headerReceived,
    Connection.OnReadHeader, hpos, PublicationTransport.dispatch, vectorResize_length]

theorem callbacksOf_dataReadCompleted {CB : Type} (t : PublicationTransport CB)
    (c : Connection) (body : Bytes)
    (hc : t.connection = some c) (ho : c.IsOpen = true)
    (hlen : body.length = c.inbound_data.length) (hne : body ≠ []) :
    callbacksOf (t.dataReadCompleted false none body).2
      = t.callback.toList.map fun cb => (cb, body) := by
  have ho1 : ({ c with inbound_data := ([] : Bytes) } : Connection).IsOpen = true := ho
  have hpub := callbacksOf_OnPublish_open
    ({ t with connection := some ({ c with inbound_data := [] }) }) _ body rfl ho1 hne
  simp only at hpub
  simp [PublicationTransport.dataReadCompleted, hc, Connection.dataReceived,
    Connection.OnReadData, bufferAfterRead_full _ _ hlen, hne, PublicationTransport.dispatch,
    callbacksOf, callbacksOf_append, hpub]

end Helpers

/-- C1: on a transport whose connection is set and open and on which a
callback `cb` was registered with `AddCallback`, `OnPublish d` for a non-empty
`d` invokes `cb` exactly once, with argument `d`. -/
theorem C1_OnPublish_invokes_callback_once {CB : Type} (t : PublicationTransport CB)
    (c : Connection) (cb : CB) (d : Bytes)
    (hc : t.connection = some c) (ho : c.IsOpen = true) (hd : d ≠ []) :
    callbacksOf ((t.AddCallback (some cb)).OnPublish d).2 = [(cb, d)] := by
  have hc1 : (t.AddCallback (some cb)).connection = some c := hc
  rw [OnPublish_open _ c d hc1 ho]
  simp [hd, PublicationTransport.AddCallback, callbacksOf]

/-- Witness of C1 on the sample transport with callback 7 and payload 1, 2. -/
theorem C1_OnPublish_invokes_callback_once_witness :
    sampleTransport.connection = some sampleConnection ∧
    sampleConnection.IsOpen = true ∧
    callbacksOf ((sampleTransport.AddCallback (some 7)).OnPublish [1, 2]).2 = [(7, [1, 2])] :=
  ⟨rfl, rfl,
    C1_OnPublish_invokes_callback_once sampleTransport sampleConnection 7 [1, 2] rfl rfl
      (by decide)⟩

/-- C2: when the header held in `inbound_header` parses to a length `n > 0`,
`OnReadHeader` (no error) sizes `inbound_data` to exactly `n` bytes and its
only effect is one body read of `n` bytes; when that read then completes
without error with the `n` bytes `body` and the transport is not stopped,
the only effect of `OnReadData` is one invocation of the handler with `body`,
whose length is the length given by the header. -/
theorem C2_body_read_and_delivery_match_header {H : Type} (ParseHeader : Bytes → Nat) (h : H)
    (c : Connection) (n : Nat) (body : Bytes)
    (hn : ParseHeader c.inbound_header = n) (hpos : 0 < n) (hb : body.length = n) :
    (c.OnReadHeader ParseHeader none h).1.inbound_data.length = n ∧
    (c.OnReadHeader ParseHeader none h).2 = [Effect.asyncReadData n h] ∧
    (((c.OnReadHeader ParseHeader none h).1.dataReceived body).OnReadData false none h).2
      = [Effect.invoke h body] ∧
    body.length = ParseHeader c.inbound_header := by
  have hne : body ≠ [] := by
    intro hnil
    rw [hnil] at hb
    simp at hb
    omega
  have hstep : c.OnReadHeader ParseHeader none h =
      ({ c with inbound_header := [], inbound_data := vectorResize n c.inbound_data },
        [Effect.asyncReadData n h]) := by
    simp [Connection.OnReadHeader, hn, hpos, vectorResize_length]
  rw [hstep]
  refine ⟨vectorResize_length n _, rfl, ?_, by rw [hn, hb]⟩
  have hfull : bufferAfterRead (vectorResize n c.inbound_data) body = body :=
    bufferAfterRead_full _ _ (by rw [vectorResize_length, hb])
  simp [Connection.dataReceived, Connection.OnReadData, hfull, hne]

/-- Witness of C2: a header whose last byte is 3 on the sample connection, and the
body 10, 20, 30. -/
theorem C2_body_read_and_delivery_match_header_witness :
    (0 < 3) ∧
    (({ sampleConnection with inbound_header := [0, 0, 0, 0, 0, 0, 0, 3] }.OnReadHeader
        sampleParseHeader none Handler.onPublish).2
      = [Effect.asyncReadData 3 Handler.onPublish]) ∧
    (((({ sampleConnection with inbound_header := [0, 0, 0, 0, 0, 0, 0, 3] }.OnReadHeader
        sampleParseHeader none Handler.onPublish).1.dataReceived [10, 20, 30]).OnReadData
          false none Handler.onPublish).2
      = [Effect.invoke Handler.onPublish [10, 20, 30]]) :=
  have key := C2_body_read_and_delivery_match_header sampleParseHeader Handler.onPublish
    { sampleConnection with inbound_header := [0, 0, 0, 0, 0, 0, 0, 3] } 3 [10, 20, 30]
    rfl (by decide) rfl
  ⟨by decide, key.2.1, key.2.2.1⟩

/-- C3: when the header read completes without error and the header parses
to length 0, `OnReadHeader` invokes the handler exactly once, with the empty
payload; it does not call `Close`, leaves the state of the connection as it
was, and starts no read. -/
theorem C3_empty_header_invokes_callback_with_empty_payload {H : Type}
    (ParseHeader : Bytes → Nat) (h : H) (c : Connection)
    (hz : ParseHeader c.inbound_header = 0) :
    invocationsOf (c.OnReadHeader ParseHeader none h).2 = [(h, [])] ∧
    closeCallsOf (c.OnReadHeader ParseHeader none h).2 = 0 ∧
    (c.OnReadHeader ParseHeader none h).1.state = c.state ∧
    readsOf (c.OnReadHeader ParseHeader none h).2 = [] ∧
    (c.OnReadHeader ParseHeader none h).2
      = [Effect.gzerr "Header is empty\n", Effect.invoke h []] := by
  have hstep : c.OnReadHeader ParseHeader none h =
      ({ c with inbound_header := [] },
        [Effect.gzerr "Header is empty\n", Effect.invoke h []]) := by
    simp [Connection.OnReadHeader, hz]
  rw [hstep]
  simp [invocationsOf, closeCallsOf, readsOf]

/-- Witness of C3: the all-zero header on the sample connection. -/
theorem C3_empty_header_invokes_callback_with_empty_payload_witness :
    invocationsOf ({ sampleConnection with inbound_header := [0, 0, 0, 0, 0, 0, 0, 0] }.OnReadHeader
        sampleParseHeader none Handler.onPublish).2 = [(Handler.onPublish, [])] :=
  (C3_empty_header_invokes_callback_with_empty_payload sampleParseHeader Handler.onPublish
    { sampleConnection with inbound_header := [0, 0, 0, 0, 0, 0, 0, 0] } rfl).1

/-- C4, counterexample: a header-read completion with the error message
"End of File" on the open sample connection: `OnReadHeader` does not call
`Close` and the connection is still open. -/
theorem C4_counterexample_end_of_file :
    closeCallsOf (sampleConnection.OnReadHeader sampleParseHeader (some "End of File")
      Handler.onPublish).2 = 0 ∧
    (sampleConnection.OnReadHeader sampleParseHeader (some "End of File")
      Handler.onPublish).1.IsOpen = true := by
  simp [Connection.OnReadHeader, closeCallsOf, sampleConnection, Connection.IsOpen]

/-- C4, amended: for every header-read completion that carries an error
whose message is not "End of File", `OnReadHeader` calls `Close` exactly
once and leaves the connection Closed (not open). -/
theorem C4_header_error_closes_unless_end_of_file {H : Type} (ParseHeader : Bytes → Nat)
    (h : H) (c : Connection) (msg : String) (hmsg : msg ≠ "End of File") :
    closeCallsOf (c.OnReadHeader ParseHeader (some msg) h).2 = 1 ∧
    (c.OnReadHeader ParseHeader (some msg) h).1.state = ConnState.Closed ∧
    (c.OnReadHeader ParseHeader (some msg) h).1.IsOpen = false := by
  have hstep : c.OnReadHeader ParseHeader (some msg) h = c.Close := by
    simp [Connection.OnReadHeader, hmsg]
  rw [hstep]
  unfold Connection.Close
  split
  · next hcl => simp [closeCallsOf, hcl, Connection.IsOpen]
  · simp [closeCallsOf, Connection.IsOpen]

/-- Witness of amended C4: the error "Connection reset by peer" on the sample
connection. -/
theorem C4_header_error_closes_unless_end_of_file_witness :
    ("Connection reset by peer" ≠ "End of File") ∧
    closeCallsOf (sampleConnection.OnReadHeader sampleParseHeader
      (some "Connection reset by peer") Handler.onPublish).2 = 1 ∧
    (sampleConnection.OnReadHeader sampleParseHeader
      (some "Connection reset by peer") Handler.onPublish).1.state = ConnState.Closed :=
  have key := C4_header_error_closes_unless_end_of_file sampleParseHeader Handler.onPublish
    sampleConnection "Connection reset by peer" (by decide)
  ⟨by decide, key.1, key.2.1⟩

/-- C5, the code at the failing input: a body-read completion with the error
"Connection reset by peer" on the open sample connection, whose data buffer
was sized to 3 bytes: `OnReadData` only writes to the error log; it does not
call `Close` and the connection is still open afterwards. -/
theorem C5_body_error_leaves_connection_open :
    ({ sampleConnection with inbound_data := [0, 0, 0] }.OnReadData false
        (some "Connection reset by peer") Handler.onPublish).2
      = [Effect.gzerr "Error Reading data!\n"] ∧
    closeCallsOf ({ sampleConnection with inbound_data := [0, 0, 0] }.OnReadData false
        (some "Connection reset by peer") Handler.onPublish).2 = 0 ∧
    ({ sampleConnection with inbound_data := [0, 0, 0] }.OnReadData false
        (some "Connection reset by peer") Handler.onPublish).1.IsOpen = true := by
  simp [Connection.OnReadData, closeCallsOf, sampleConnection, Connection.IsOpen]

/-- C6: a header-read or body-read completion that carries an error (of any
message) neither invokes the handler nor starts a read. -/
theorem C6_read_error_no_callback_no_read {H : Type} (ParseHeader : Bytes → Nat)
    (is_stopped : Bool) (h : H) (c : Connection) (msg : String) :
    invocationsOf (c.OnReadHeader ParseHeader (some msg) h).2 = [] ∧
    readsOf (c.OnReadHeader ParseHeader (some msg) h).2 = [] ∧
    invocationsOf (c.OnReadData is_stopped (some msg) h).2 = [] ∧
    readsOf (c.OnReadData is_stopped (some msg) h).2 = [] := by
  refine ⟨?_, ?_, ?_, ?_⟩
  · unfold Connection.OnReadHeader Connection.Close
    simp only
    split_ifs <;> simp [invocationsOf]
  · unfold Connection.OnReadHeader Connection.Close
    simp only
    split_ifs <;> simp [readsOf]
  · unfold Connection.OnReadData
    cases hd : c.inbound_data <;> simp [invocationsOf]
  · unfold Connection.OnReadData
    cases hd : c.inbound_data <;> simp [readsOf]

/-- C7: on a transport that holds an open connection, the completion of a
header read (no error) whose header parses to length 0 invokes no callback
of the transport, calls `AsyncRead` once and arms exactly one new header read
(of 8 bytes, bound to `OnPublish`) and no body read; the connection is still
held and open.  A following frame is received: when the next header parses
to `n > 0` and its `n` body bytes arrive (transport not stopped), the
registered callback, if there is one, is invoked once with those bytes. -/
theorem C7_zero_length_frame_rearms_header_read {CB : Type} (ParseHeader : Bytes → Nat)
    (t : PublicationTransport CB) (c : Connection) (received : Bytes)
    (hc : t.connection = some c) (ho : c.IsOpen = true)
    (hz : ParseHeader (bufferAfterRead c.inbound_header received) = 0) :
    callbacksOf (t.headerReadCompleted ParseHeader none received).2 = [] ∧
    asyncReadCallsOf (t.headerReadCompleted ParseHeader none received).2
      = [Handler.onPublish] ∧
    headerReadsOf (t.headerReadCompleted ParseHeader none received).2
      = [(8, Handler.onPublish)] ∧
    dataReadsOf (t.headerReadCompleted ParseHeader none received).2 = [] ∧
    (∃ c1, (t.headerReadCompleted ParseHeader none received).1.connection = some c1 ∧
      c1.IsOpen = true ∧ c1.inbound_header.length = 8) ∧
    (∀ (next body : Bytes), next.length = 8 → 0 < ParseHeader next →
      body.length = ParseHeader next →
      callbacksOf
        ((((t.headerReadCompleted ParseHeader none received).1.headerReadCompleted
            ParseHeader none next).1.dataReadCompleted false none body).2)
        = (t.callback.toList.map fun cb => (cb, body))) := by
  rw [headerReadCompleted_zero ParseHeader t c received hc ho hz]
  refine ⟨by simp [callbacksOf], by simp [asyncReadCallsOf], by simp [headerReadsOf],
    by simp [dataReadsOf], ⟨_, rfl, ho, vectorResize_length _ _⟩, ?_⟩
  intro next body hlen hpos hbody
  have hne : body ≠ [] := by
    intro hnil
    rw [hnil] at hbody
    simp at hbody
    omega
  have hfull : bufferAfterRead (vectorResize HEADER_LENGTH []) next = next :=
    bufferAfterRead_full _ _ (by rw [vectorResize_length, hlen]; rfl)
  have hpos1 : 0 < ParseHeader (bufferAfterRead
      ({ c with inbound_header := vectorResize HEADER_LENGTH [] } : Connection).inbound_header
      next) := by
    simpa [hfull] using hpos
  rw [headerReadCompleted_pos ParseHeader _ _ next rfl hpos1]
  have ho2 : ({ c with
      inbound_header := ([] : Bytes)
      inbound_data := vectorResize (ParseHeader next) c.inbound_data } : Connection).IsOpen
      = true := ho
  have hdel := callbacksOf_dataReadCompleted
    ({ t with connection := some ({ c with
        inbound_header := []
        inbound_data := vectorResize (ParseHeader next) c.inbound_data }) })
    _ body rfl ho2 (by simp [vectorResize_length, hbody]) hne
  simpa [hfull] using hdel

/-- Witness of C7: the sample transport with callback 7 receives the all-zero
header; afterwards the frame with header ending in 2 and body 5, 6 is
delivered to the callback. -/
theorem C7_zero_length_frame_rearms_header_read_witness :
    callbacksOf ((sampleTransport.AddCallback (some 7)).headerReadCompleted sampleParseHeader
        none [0, 0, 0, 0, 0, 0, 0, 0]).2 = [] ∧
    headerReadsOf ((sampleTransport.AddCallback (some 7)).headerReadCompleted sampleParseHeader
        none [0, 0, 0, 0, 0, 0, 0, 0]).2 = [(8, Handler.onPublish)] ∧
    callbacksOf
        (((((sampleTransport.AddCallback (some 7)).headerReadCompleted sampleParseHeader
            none [0, 0, 0, 0, 0, 0, 0, 0]).1.headerReadCompleted
            sampleParseHeader none [0, 0, 0, 0, 0, 0, 0, 2]).1.dataReadCompleted
            false none [5, 6]).2)
        = [(7, [5, 6])] :=
  have key := C7_zero_length_frame_rearms_header_read sampleParseHeader
    (sampleTransport.AddCallback (some 7)) sampleConnection [0, 0, 0, 0, 0, 0, 0, 0]
    rfl rfl rfl
  ⟨key.1, key.2.2.1, key.2.2.2.2.2 [0, 0, 0, 0, 0, 0, 0, 2] [5, 6] rfl (by decide) rfl⟩

/-- C8: `OnPublish` with the empty payload invokes no callback, for every
transport (callback registered or not, connection held or not, open or not). -/
theorem C8_OnPublish_empty_payload_no_callback {CB : Type} (t : PublicationTransport CB) :
    callbacksOf (t.OnPublish []).2 = [] := by
  unfold PublicationTransport.OnPublish
  cases hc : t.connection with
  | none => simp [callbacksOf]
  | some c =>
    simp only
    cases ho : c.IsOpen
    · simp [callbacksOf]
    · simp [callbacksOf, AsyncRead_open _ c ho]

/-- C9: `OnPublish` on a transport whose connection is open calls `AsyncRead`
bound to `OnPublish` exactly once, which starts exactly one header read on the
connection, and the call precedes every callback invocation: the trace splits
around the call into a part before it with no callback invocation and no
`AsyncRead`, and a part after it with no further `AsyncRead`. -/
theorem C9_OnPublish_rearms_once_before_callback {CB : Type} (t : PublicationTransport CB)
    (c : Connection) (d : Bytes)
    (hc : t.connection = some c) (ho : c.IsOpen = true) :
    asyncReadCallsOf (t.OnPublish d).2 = [Handler.onPublish] ∧
    headerReadsOf (t.OnPublish d).2 = [(8, Handler.onPublish)] ∧
    ∃ before after, (t.OnPublish d).2
        = before ++ TEvent.asyncReadCall Handler.onPublish :: after ∧
      callbacksOf before = [] ∧ asyncReadCallsOf before = [] ∧
      asyncReadCallsOf after = [] := by
  rw [OnPublish_open t c d hc ho]
  refine ⟨?_, ?_, [TEvent.cout ("PublicationTransport::OnPublish[" ++ t.topic ++ "]\n")],
    TEvent.conn (Effect.asyncReadHeader 8 Handler.onPublish) ::
      (if d = [] then [] else
        match t.callback with
        | some cb => [TEvent.callback cb d]
        | none => []), ?_, rfl, rfl, ?_⟩
  · cases hcb : t.callback <;> by_cases hd : d = [] <;> simp [asyncReadCallsOf, hd]
  · cases hcb : t.callback <;> by_cases hd : d = [] <;> simp [headerReadsOf, hd]
  · simp
  · cases hcb : t.callback <;> by_cases hd : d = [] <;> simp [asyncReadCallsOf, hd]

/-- Witness of C9: the sample transport with callback 7 and payload 1, 2. -/
theorem C9_OnPublish_rearms_once_before_callback_witness :
    asyncReadCallsOf ((sampleTransport.AddCallback (some 7)).OnPublish [1, 2]).2
      = [Handler.onPublish] ∧
    (sampleTransport.AddCallback (some 7)).OnPublish [1, 2]
      = ({ sampleTransport with
            callback := some 7
            connection := some { sampleConnection with
              inbound_header := [0, 0, 0, 0, 0, 0, 0, 0] } },
         [TEvent.cout "PublicationTransport::OnPublish[/t]\n",
          TEvent.asyncReadCall Handler.onPublish,
          TEvent.conn (Effect.asyncReadHeader 8 Handler.onPublish),
          TEvent.callback 7 [1, 2]]) :=
  ⟨(C9_OnPublish_rearms_once_before_callback (sampleTransport.AddCallback (some 7))
      sampleConnection [1, 2] rfl rfl).1, by decide⟩

/-- C10: `AsyncRead` starts a read exactly when the connection is open.  On an
open connection it leaves `inbound_header` with exactly `HEADER_LENGTH` = 8
bytes, whatever it held before, and its only effect is one header read of 8
bytes bound to the handler; on a connection that is not open it starts no
read, does not invoke the handler and leaves the connection as it was. -/
theorem C10_AsyncRead_reads_iff_open {H : Type} (h : H) (c : Connection) :
    HEADER_LENGTH = 8 ∧
    (readsOf (c.AsyncRead h).2 ≠ [] ↔ c.IsOpen = true) ∧
    (c.IsOpen = true →
      (c.AsyncRead h).1.inbound_header.length = HEADER_LENGTH ∧
      (c.AsyncRead h).2 = [Effect.asyncReadHeader 8 h]) ∧
    (c.IsOpen = false →
      readsOf (c.AsyncRead h).2 = [] ∧ (c.AsyncRead h).1 = c) ∧
    invocationsOf (c.AsyncRead h).2 = [] := by
  cases ho : c.IsOpen
  · simp [Connection.AsyncRead, ho, readsOf, invocationsOf, HEADER_LENGTH]
  · simp [AsyncRead_open h c ho, readsOf, invocationsOf, HEADER_LENGTH, vectorResize_length]

/-- Witness of C10: an open connection whose header buffer held 9 bytes, and a
closed connection. -/
theorem C10_AsyncRead_reads_iff_open_witness :
    (({ sampleConnection with inbound_header := [1, 2, 3, 4, 5, 6, 7, 8, 9] }.AsyncRead
        Handler.onPublish).1.inbound_header.length = HEADER_LENGTH ∧
      ({ sampleConnection with inbound_header := [1, 2, 3, 4, 5, 6, 7, 8, 9] }.AsyncRead
        Handler.onPublish).2 = [Effect.asyncReadHeader 8 Handler.onPublish]) ∧
    (readsOf ({ sampleConnection with state := ConnState.Closed }.AsyncRead
        Handler.onPublish).2 = [] ∧
      ({ sampleConnection with state := ConnState.Closed }.AsyncRead Handler.onPublish).1
        = { sampleConnection with state := ConnState.Closed }) :=
  ⟨(C10_AsyncRead_reads_iff_open Handler.onPublish
      { sampleConnection with inbound_header := [1, 2, 3, 4, 5, 6, 7, 8, 9] }).2.2.1 rfl,
   (C10_AsyncRead_reads_iff_open Handler.onPublish
      { sampleConnection with state := ConnState.Closed }).2.2.2.1 rfl⟩

/-- C11: `Init` on a connection `conn` passes exactly one message to
`EnqueueMsg`, the envelope `Package("sub", s)` where `s` carries the topic and
message type of the transport and the local address and port of `conn`; the
call is the first event, before the call of `AsyncRead` bound to `OnPublish`
and the read it starts (one header read of 8 bytes when `conn` is open);
afterwards `GetConnection()` is `conn` (same id, in the state `AsyncRead`
left it). -/
theorem C11_Init_enqueues_subscribe_before_read {CB : Type}
    (GetLocalAddress : Connection → String) (GetLocalPort : Connection → Nat)
    (shutdownHandle : Nat) (conn : Connection) (t : PublicationTransport CB) :
    ∃ r, t.Init GetLocalAddress GetLocalPort shutdownHandle (some conn) = some r ∧
      enqueuedOf r.2 = [msgs.Package "sub"
        { topic := t.topic, msg_type := t.msgType,
          host := GetLocalAddress conn, port := GetLocalPort conn }] ∧
      (∃ after, r.2 = TEvent.enqueueMsg (msgs.Package "sub"
            { topic := t.topic, msg_type := t.msgType,
              host := GetLocalAddress conn, port := GetLocalPort conn }) ::
          TEvent.asyncReadCall Handler.onPublish :: after ∧
        enqueuedOf after = [] ∧ asyncReadCallsOf after = [] ∧
        headerReadsOf after = if conn.IsOpen then [(8, Handler.onPublish)] else []) ∧
      r.1.GetConnection = some (conn.AsyncRead Handler.onPublish).1 ∧
      r.1.GetConnection.map Connection.id = some conn.id := by
  refine ⟨_, rfl, ?_, ⟨(conn.AsyncRead Handler.onPublish).2.map TEvent.conn ++
    [TEvent.connectToShutdown], ?_, ?_, ?_, ?_⟩, rfl, ?_⟩
  · cases ho : conn.IsOpen
    · simp [Connection.AsyncRead, ho, enqueuedOf]
    · simp [AsyncRead_open _ conn ho, enqueuedOf]
  · simp
  · cases ho : conn.IsOpen
    · simp [Connection.AsyncRead, ho, enqueuedOf]
    · simp [AsyncRead_open _ conn ho, enqueuedOf]
  · cases ho : conn.IsOpen
    · simp [Connection.AsyncRead, ho, asyncReadCallsOf]
    · simp [AsyncRead_open _ conn ho, asyncReadCallsOf]
  · cases ho : conn.IsOpen
    · simp [Connection.AsyncRead, ho, headerReadsOf]
    · simp [AsyncRead_open _ conn ho, headerReadsOf]
  · cases ho : conn.IsOpen
    · simp [PublicationTransport.GetConnection, Connection.AsyncRead, ho]
    · simp [PublicationTransport.GetConnection, AsyncRead_open _ conn ho]

/-- C12: let `Init` on `conn` have sent its subscribe envelope.  When a
transport with the same topic and message type that holds a connection `c2`
with the same local address and port is destroyed, the destructor calls
`ConnectionManager::Unsubscribe` exactly once, with the very message that the
subscribe envelope of `Init` carried, and no `Cancel` precedes that call: the
single `Cancel` (on `c2`) follows it. -/
theorem C12_dtor_unsubscribe_matches_subscribe {CB : Type}
    (GetLocalAddress : Connection → String) (GetLocalPort : Connection → Nat)
    (shutdownHandle : Nat) (conn c2 : Connection) (t t2 : PublicationTransport CB)
    (r : PublicationTransport CB × List (TEvent CB))
    (hinit : t.Init GetLocalAddress GetLocalPort shutdownHandle (some conn) = some r)
    (hheld : t2.connection = some c2)
    (htopic : t2.topic = t.topic) (htype : t2.msgType = t.msgType)
    (haddr : GetLocalAddress c2 = GetLocalAddress conn)
    (hport : GetLocalPort c2 = GetLocalPort conn) :
    ∃ sub, enqueuedOf r.2 = [msgs.Package "sub" sub] ∧
      unsubscribesOf (t2.dtor GetLocalAddress GetLocalPort).2 = [sub] ∧
      ∃ before after, (t2.dtor GetLocalAddress GetLocalPort).2
          = before ++ TEvent.unsubscribe sub :: after ∧
        cancelsOf before = [] ∧ unsubscribesOf before = [] ∧
        cancelsOf after = [c2.id] ∧ unsubscribesOf after = [] := by
  refine ⟨⟨t.topic, t.msgType, GetLocalAddress conn, GetLocalPort conn⟩, ?_, ?_, ?_⟩
  · have hr : r = ({ t with
          connection := some (conn.AsyncRead Handler.onPublish).1
          shutdownConnectionPtr := some shutdownHandle },
        [TEvent.enqueueMsg (msgs.Package "sub"
          { topic := t.topic, msg_type := t.msgType,
            host := GetLocalAddress conn, port := GetLocalPort conn }),
         TEvent.asyncReadCall Handler.onPublish] ++
          (conn.AsyncRead Handler.onPublish).2.map TEvent.conn ++
          [TEvent.connectToShutdown]) := by
      simpa [PublicationTransport.Init] using hinit.symm
    rw [hr]
    cases ho : conn.IsOpen
    · simp [Connection.AsyncRead, ho, enqueuedOf]
    · simp [AsyncRead_open _ conn ho, enqueuedOf]
  · simp [PublicationTransport.dtor, hheld, htopic, htype, haddr, hport, unsubscribesOf]
  · refine ⟨[TEvent.disconnectShutdown t2.shutdownConnectionPtr],
      [TEvent.cancel c2.id, TEvent.removeConnection none], ?_, rfl, rfl, rfl, rfl⟩
    simp [PublicationTransport.dtor, hheld, htopic, htype, haddr, hport]

/-- Witness of C12: the sample transport is initialised on the sample
connection and the transport that `Init` leaves is destroyed. -/
theorem C12_dtor_unsubscribe_matches_subscribe_witness :
    (sampleTransport.Init sampleLocalAddress sampleLocalPort 9 (some sampleConnection)).map
        (fun r => enqueuedOf r.2)
      = some [msgs.Package "sub"
          { topic := "/t", msg_type := "m", host := "127.0.0.1", port := 11346 }] ∧
    ∃ sub, enqueuedOf [TEvent.enqueueMsg (msgs.Package "sub"
          { topic := "/t", msg_type := "m", host := "127.0.0.1", port := 11346 }),
        TEvent.asyncReadCall Handler.onPublish,
        (TEvent.conn (Effect.asyncReadHeader 8 Handler.onPublish) : TEvent Nat),
        TEvent.connectToShutdown] = [msgs.Package "sub" sub] ∧
      unsubscribesOf (({ sampleTransport with
          connection := some { sampleConnection with
            inbound_header := [0, 0, 0, 0, 0, 0, 0, 0] }
          shutdownConnectionPtr := some 9 } : PublicationTransport Nat).dtor
        sampleLocalAddress sampleLocalPort).2 = [sub] :=
  have key := C12_dtor_unsubscribe_matches_subscribe sampleLocalAddress sampleLocalPort 9
    sampleConnection { sampleConnection with inbound_header := [0, 0, 0, 0, 0, 0, 0, 0] }
    sampleTransport
    { sampleTransport with
        connection := some { sampleConnection with
          inbound_header := [0, 0, 0, 0, 0, 0, 0, 0] }
        shutdownConnectionPtr := some 9 }
    ({ sampleTransport with
        connection := some { sampleConnection with
          inbound_header := [0, 0, 0, 0, 0, 0, 0, 0] }
        shutdownConnectionPtr := some 9 },
      [TEvent.enqueueMsg (msgs.Package "sub"
          { topic := "/t", msg_type := "m", host := "127.0.0.1", port := 11346 }),
        TEvent.asyncReadCall Handler.onPublish,
        TEvent.conn (Effect.asyncReadHeader 8 Handler.onPublish),
        TEvent.connectToShutdown])
    (by decide) rfl rfl rfl rfl rfl
  ⟨by decide, key.elim fun sub h => ⟨sub, h.1, h.2.1⟩⟩

/-- C13, the code at the failing input: the sample transport, which holds the
sample connection (id 1), is destroyed.  `Cancel` is called on connection 1,
and `RemoveConnection` is called once, with the null pointer, not with
connection 1: the destructor resets `connection` before it passes it. -/
theorem C13_dtor_removes_null_connection :
    sampleTransport.connection = some sampleConnection ∧
    sampleConnection.id = 1 ∧
    cancelsOf (sampleTransport.dtor sampleLocalAddress sampleLocalPort).2 = [1] ∧
    removeConnectionsOf (sampleTransport.dtor sampleLocalAddress sampleLocalPort).2
      = [none] := by
  simp [PublicationTransport.dtor, sampleTransport, sampleConnection, cancelsOf,
    removeConnectionsOf]

/-- C14, counterexample: a transport is constructed, initialised on the
sample connection, finalised with `Fini()` and then destroyed: the destructor
issues no unsubscribe (it has no event at all). -/
theorem C14_counterexample_Fini_then_dtor :
    ((((PublicationTransport.ctor 0 "/t" "m").1 : PublicationTransport Nat).Init
        sampleLocalAddress sampleLocalPort 9 (some sampleConnection)).bind
      fun r => r.1.Fini).map
      (fun r => unsubscribesOf (r.1.dtor sampleLocalAddress sampleLocalPort).2)
      = some [] := by
  simp [PublicationTransport.ctor, PublicationTransport.Init, PublicationTransport.Fini,
    PublicationTransport.dtor, unsubscribesOf]

/-- C14, amended: a transport that holds its connection `c` when it is
destroyed issues exactly one unsubscribe message (topic, message type, local
address and port of `c`); when it is finalised with `Fini()` first, the
destructor issues none. -/
theorem C14_unsubscribe_only_while_connection_held {CB : Type}
    (GetLocalAddress : Connection → String) (GetLocalPort : Connection → Nat)
    (t : PublicationTransport CB) (c : Connection)
    (r : PublicationTransport CB × List (TEvent CB))
    (hheld : t.connection = some c) (hfini : t.Fini = some r) :
    unsubscribesOf (t.dtor GetLocalAddress GetLocalPort).2
      = [{ topic := t.topic, msg_type := t.msgType,
           host := GetLocalAddress c, port := GetLocalPort c }] ∧
    unsubscribesOf (r.1.dtor GetLocalAddress GetLocalPort).2 = [] := by
  have hr : r = ({ t with connection := none }, [TEvent.cancel c.id]) := by
    simpa [PublicationTransport.Fini, hheld] using hfini.symm
  rw [hr]
  simp [PublicationTransport.dtor, hheld, unsubscribesOf]

/-- Witness of amended C14: the sample transport, destroyed directly and
destroyed after `Fini()`. -/
theorem C14_unsubscribe_only_while_connection_held_witness :
    unsubscribesOf (sampleTransport.dtor sampleLocalAddress sampleLocalPort).2
      = [{ topic := "/t", msg_type := "m", host := "127.0.0.1", port := 11346 }] ∧
    unsubscribesOf (({ sampleTransport with connection := none }
      : PublicationTransport Nat).dtor sampleLocalAddress sampleLocalPort).2 = [] :=
  C14_unsubscribe_only_while_connection_held sampleLocalAddress sampleLocalPort
    sampleTransport sampleConnection
    ({ sampleTransport with connection := none }, [TEvent.cancel 1]) rfl rfl

/-- C15: on a transport that holds a connection `c`, `Fini()` returns, its
only event is one call of `Cancel` on `c`, and afterwards `GetConnection()` is
the null pointer while topic, message type and callback are as before. -/
theorem C15_Fini_cancels_once_and_releases {CB : Type} (t : PublicationTransport CB)
    (c : Connection) (hheld : t.connection = some c) :
    ∃ r, t.Fini = some r ∧
      r.2 = [TEvent.cancel c.id] ∧ cancelsOf r.2 = [c.id] ∧
      r.1.GetConnection = none ∧
      r.1.GetTopic = t.GetTopic ∧ r.1.GetMsgType = t.GetMsgType ∧
      r.1.callback = t.callback := by
  refine ⟨({ t with connection := none }, [TEvent.cancel c.id]), ?_, rfl, rfl, rfl, rfl,
    rfl, rfl⟩
  simp [PublicationTransport.Fini, hheld]

/-- Witness of C15: the sample transport with callback 7. -/
theorem C15_Fini_cancels_once_and_releases_witness :
    ∃ r, (sampleTransport.AddCallback (some 7)).Fini = some r ∧
      r.2 = [TEvent.cancel 1] ∧ r.1.GetConnection = none ∧ r.1.callback = some 7 :=
  (C15_Fini_cancels_once_and_releases (sampleTransport.AddCallback (some 7))
    sampleConnection rfl).elim fun r h => ⟨r, h.1, h.2.1, h.2.2.2.1, h.2.2.2.2.2.2⟩

/-- C16: the constructor calls `TopicManager::UpdatePublications` exactly once
(its only event), with the topic and the message type it was given, and on
the new object `GetTopic()` and `GetMsgType()` return them. -/
theorem C16_ctor_registers_publication_once {CB : Type} (counter : Nat)
    (topic msgType : String) :
    (PublicationTransport.ctor counter topic msgType : _ × _ × List (TEvent CB)).2.2
      = [TEvent.updatePublications topic msgType] ∧
    updatePublicationsOf
      (PublicationTransport.ctor counter topic msgType : _ × _ × List (TEvent CB)).2.2
      = [(topic, msgType)] ∧
    (PublicationTransport.ctor counter topic msgType
      : PublicationTransport CB × _ × _).1.GetTopic = topic ∧
    (PublicationTransport.ctor counter topic msgType
      : PublicationTransport CB × _ × _).1.GetMsgType = msgType :=
  ⟨rfl, rfl, rfl, rfl⟩

section NodeHelpers

theorem Callback_M.find_pushBack_self (m : Callback_M) (key : String) (h : CallbackHelper) :
    (m.pushBack key h).find key = some ((m.find key).getD [] ++ [h]) := by
  induction m with
  | nil => simp [Callback_M.pushBack, Callback_M.find]
  | cons e rest ih =>
    obtain ⟨k, l⟩ := e
    by_cases hk : k = key
    · simp [Callback_M.pushBack, Callback_M.find, hk]
    · simp [Callback_M.pushBack, Callback_M.find, hk, ih]

theorem Callback_M.find_pushBack_other (m : Callback_M) (key other : String)
    (h : CallbackHelper) (hne : other ≠ key) :
    (m.pushBack key h).find other = m.find other := by
  induction m with
  | nil => simp [Callback_M.pushBack, Callback_M.find, Ne.symm hne]
  | cons e rest ih =>
    obtain ⟨k, l⟩ := e
    by_cases hk : k = key
    · have hko : ¬ k = other := fun hh => hne (hh.symm.trans hk)
      simp [Callback_M.pushBack, Callback_M.find, hk, hko, Ne.symm hne]
    · by_cases hko : k = other
      · subst hko
        simp [Callback_M.pushBack, Callback_M.find, hne]
      · simp [Callback_M.pushBack, Callback_M.find, hk, hko, ih]

end NodeHelpers

/-- C17: each of the two `Subscribe` overloads appends exactly one new handler
(wrapping the given callable for the message type `M`) to the end of the
list stored under the decoded topic, which keeps its earlier handlers in
order; the list under every other key is as before; the single call made is
`TopicManager::Subscribe` with options holding the decoded topic, the id of
this node and the latching flag (made on the node that has the new handler),
and what it returns is returned. -/
theorem C17_Subscribe_appends_one_handler (DecodeTopicName : Node → String → String)
    (tmSubscribe : SubscribeOptions → Node → Except String SubscriberPtr)
    (M _topic : String) (_fp _obj : Nat) (_latching : Bool) (n : Node) :
    ((n.SubscribeMember DecodeTopicName tmSubscribe M _topic _fp _obj _latching).1.callbacks.find
        (DecodeTopicName n _topic)
      = some ((n.callbacks.find (DecodeTopicName n _topic)).getD [] ++
          [{ M := M, callable := Callable.boundMember _fp _obj }]) ∧
     (∀ key, key ≠ DecodeTopicName n _topic →
        (n.SubscribeMember DecodeTopicName tmSubscribe M _topic _fp _obj
          _latching).1.callbacks.find key = n.callbacks.find key) ∧
     (n.SubscribeMember DecodeTopicName tmSubscribe M _topic _fp _obj _latching).2.1
      = [NEvent.subscribe { node := n.id, topic := DecodeTopicName n _topic,
                            msgType := M, latching := _latching }] ∧
     (n.SubscribeMember DecodeTopicName tmSubscribe M _topic _fp _obj _latching).2.2
      = tmSubscribe { node := n.id, topic := DecodeTopicName n _topic,
                      msgType := M, latching := _latching }
          (n.SubscribeMember DecodeTopicName tmSubscribe M _topic _fp _obj _latching).1) ∧
    ((n.SubscribeFunction DecodeTopicName tmSubscribe M _topic _fp _latching).1.callbacks.find
        (DecodeTopicName n _topic)
      = some ((n.callbacks.find (DecodeTopicName n _topic)).getD [] ++
          [{ M := M, callable := Callable.freeFunction _fp }]) ∧
     (∀ key, key ≠ DecodeTopicName n _topic →
        (n.SubscribeFunction DecodeTopicName tmSubscribe M _topic _fp
          _latching).1.callbacks.find key = n.callbacks.find key) ∧
     (n.SubscribeFunction DecodeTopicName tmSubscribe M _topic _fp _latching).2.1
      = [NEvent.subscribe { node := n.id, topic := DecodeTopicName n _topic,
                            msgType := M, latching := _latching }] ∧
     (n.SubscribeFunction DecodeTopicName tmSubscribe M _topic _fp _latching).2.2
      = tmSubscribe { node := n.id, topic := DecodeTopicName n _topic,
                      msgType := M, latching := _latching }
          (n.SubscribeFunction DecodeTopicName tmSubscribe M _topic _fp _latching).1) := by
  refine ⟨⟨?_, ?_, rfl, rfl⟩, ⟨?_, ?_, rfl, rfl⟩⟩
  · exact Callback_M.find_pushBack_self _ _ _
  · intro key hne
    exact Callback_M.find_pushBack_other _ _ _ _ hne
  · exact Callback_M.find_pushBack_self _ _ _
  · intro key hne
    exact Callback_M.find_pushBack_other _ _ _ _ hne

/-- Witness of C17: the sample node subscribes to "a", under which it already
has one handler, with a class method and then with a bare function; the list
under the other key "/gazebo/z" stays absent. -/
theorem C17_Subscribe_appends_one_handler_witness :
    (sampleNode.SubscribeMember sampleDecodeTopicName sampleTmSubscribe "msgs.Pose" "a" 5 6
        true).1.callbacks
      = [("/gazebo/a", [{ M := "msgs.Pose", callable := Callable.freeFunction 1 },
                        { M := "msgs.Pose", callable := Callable.boundMember 5 6 }])] ∧
    (sampleNode.SubscribeMember sampleDecodeTopicName sampleTmSubscribe "msgs.Pose" "a" 5 6
        true).1.callbacks.find "/gazebo/z" = sampleNode.callbacks.find "/gazebo/z" ∧
    (sampleNode.SubscribeFunction sampleDecodeTopicName sampleTmSubscribe "msgs.Pose" "a" 5
        true).2.2 = Except.ok 21 :=
  have key := C17_Subscribe_appends_one_handler sampleDecodeTopicName sampleTmSubscribe
    "msgs.Pose" "a" 5 6 true sampleNode
  ⟨by decide, key.1.2.1 "/gazebo/z" (by decide), key.2.2.2.2⟩

/-- C18: `Advertise` makes one call, `TopicManager::Advertise<M>` with the
decoded topic, the queue limit and the latch flag, and leaves the callback
table as it was; when that call returns a handle, `Advertise` returns it and
the publisher list is the earlier list followed by that handle, with
`publishersEnd` at its end. -/
theorem C18_Advertise_appends_publisher (DecodeTopicName : Node → String → String)
    (tmAdvertise : String → String → Nat → Bool → Except String PublisherPtr)
    (M _topic : String) (_queueLimit : Nat) (_latch : Bool) (n : Node)
    (publisher : PublisherPtr)
    (hret : tmAdvertise M (DecodeTopicName n _topic) _queueLimit _latch
      = Except.ok publisher) :
    (n.Advertise DecodeTopicName tmAdvertise M _topic _queueLimit _latch).2.1
      = [NEvent.advertise M (DecodeTopicName n _topic) _queueLimit _latch] ∧
    (n.Advertise DecodeTopicName tmAdvertise M _topic _queueLimit _latch).2.2
      = Except.ok publisher ∧
    (n.Advertise DecodeTopicName tmAdvertise M _topic _queueLimit _latch).1.publishers
      = n.publishers ++ [publisher] ∧
    (n.Advertise DecodeTopicName tmAdvertise M _topic _queueLimit _latch).1.publishersEnd
      = n.publishers.length + 1 ∧
    (n.Advertise DecodeTopicName tmAdvertise M _topic _queueLimit _latch).1.callbacks
      = n.callbacks := by
  simp [Node.Advertise, hret]

/-- Witness of C18: the sample node advertises "b" with queue limit 1000. -/
theorem C18_Advertise_appends_publisher_witness :
    (sampleNode.Advertise sampleDecodeTopicName sampleTmAdvertise "msgs.Pose" "b" 1000
        false).2.1
      = [NEvent.advertise "msgs.Pose" "/gazebo/b" 1000 false] ∧
    (sampleNode.Advertise sampleDecodeTopicName sampleTmAdvertise "msgs.Pose" "b" 1000
        false).1.publishers = [10, 11] :=
  have key := C18_Advertise_appends_publisher sampleDecodeTopicName sampleTmAdvertise
    "msgs.Pose" "b" 1000 false sampleNode 11 rfl
  ⟨key.1.trans (by decide), key.2.2.1⟩

section WriteHelpers

theorem WriteSide.ProcessWriteQueue_good (all : List Bytes) (w : WriteSide)
    (h1 : w.inFlight.length ≤ 1) (h2 : w.wire ++ w.inFlight ++ w.writeQueue = all) :
    w.ProcessWriteQueue.inFlight.length ≤ 1 ∧
    w.ProcessWriteQueue.wire ++ w.ProcessWriteQueue.inFlight ++ w.ProcessWriteQueue.writeQueue
      = all ∧
    (w.ProcessWriteQueue.inFlight = [] → w.ProcessWriteQueue.writeQueue = []) ∧
    w.ProcessWriteQueue.inFlight.length + w.ProcessWriteQueue.writeQueue.length
      = w.inFlight.length + w.writeQueue.length ∧
    w.ProcessWriteQueue.wire = w.wire := by
  obtain ⟨q, fl, wire⟩ := w
  simp only at h1 h2
  cases fl with
  | nil =>
    cases q with
    | nil =>
      have he : WriteSide.ProcessWriteQueue { writeQueue := [], inFlight := [], wire := wire }
          = { writeQueue := [], inFlight := [], wire := wire } := rfl
      rw [he]
      exact ⟨h1, h2, fun _ => rfl, rfl, rfl⟩
    | cons f rest =>
      have he : WriteSide.ProcessWriteQueue
            { writeQueue := f :: rest, inFlight := [], wire := wire }
          = { writeQueue := rest, inFlight := [f], wire := wire } := rfl
      rw [he]
      refine ⟨Nat.le_refl 1, ?_, ?_, ?_, rfl⟩
      · rw [← h2]
        simp
      · intro hcontra
        simp at hcontra
      · simp [Nat.add_comm]
  | cons f others =>
    have he : WriteSide.ProcessWriteQueue
          { writeQueue := q, inFlight := f :: others, wire := wire }
        = { writeQueue := q, inFlight := f :: others, wire := wire } := rfl
    rw [he]
    refine ⟨h1, h2, ?_, rfl, rfl⟩
    intro hcontra
    simp at hcontra

theorem WriteSide.EnqueueMsg_good (encodeHeader : Nat → Bytes) (buffer : Bytes) (force : Bool)
    (all : List Bytes) (w : WriteSide)
    (h1 : w.inFlight.length ≤ 1) (h2 : w.wire ++ w.inFlight ++ w.writeQueue = all) :
    (w.EnqueueMsg encodeHeader buffer force).inFlight.length ≤ 1 ∧
    (w.EnqueueMsg encodeHeader buffer force).wire ++
        (w.EnqueueMsg encodeHeader buffer force).inFlight ++
        (w.EnqueueMsg encodeHeader buffer force).writeQueue
      = all ++ [frame encodeHeader buffer] ∧
    ((w.EnqueueMsg encodeHeader buffer force).inFlight = [] →
      (w.EnqueueMsg encodeHeader buffer force).writeQueue = []) := by
  cases force with
  | true =>
    have he : w.EnqueueMsg encodeHeader buffer true
        = { writeQueue := [], inFlight := [],
            wire := w.wire ++ w.inFlight ++ (w.writeQueue ++ [frame encodeHeader buffer]) } :=
      rfl
    rw [he]
    refine ⟨Nat.zero_le 1, ?_, fun _ => rfl⟩
    rw [← h2]
    simp
  | false =>
    have hg := WriteSide.ProcessWriteQueue_good (all ++ [frame encodeHeader buffer])
      { w with writeQueue := w.writeQueue ++ [frame encodeHeader buffer] } h1
      (by rw [← h2]; simp)
    have he : w.EnqueueMsg encodeHeader buffer false
        = WriteSide.ProcessWriteQueue
            { w with writeQueue := w.writeQueue ++ [frame encodeHeader buffer] } := rfl
    rw [he]
    exact ⟨hg.1, hg.2.1, hg.2.2.1⟩

theorem WriteSide.OnWrite_good (all : List Bytes) (w : WriteSide)
    (h1 : w.inFlight.length ≤ 1) (h2 : w.wire ++ w.inFlight ++ w.writeQueue = all)
    (h3 : w.inFlight = [] → w.writeQueue = []) :
    w.OnWrite.inFlight.length ≤ 1 ∧
    w.OnWrite.wire ++ w.OnWrite.inFlight ++ w.OnWrite.writeQueue = all ∧
    (w.OnWrite.inFlight = [] → w.OnWrite.writeQueue = []) ∧
    w.OnWrite.inFlight.length + w.OnWrite.writeQueue.length
      = w.inFlight.length + w.writeQueue.length - 1 := by
  obtain ⟨q, fl, wire⟩ := w
  simp only at h1 h2 h3
  cases fl with
  | nil =>
    have hq : q = [] := h3 rfl
    subst hq
    have he : WriteSide.OnWrite { writeQueue := [], inFlight := [], wire := wire }
        = { writeQueue := [], inFlight := [], wire := wire } := rfl
    rw [he]
    exact ⟨h1, h2, fun _ => rfl, rfl⟩
  | cons f others =>
    have ho : others = [] := by
      cases others with
      | nil => rfl
      | cons g more => simp at h1
    subst ho
    have hg := WriteSide.ProcessWriteQueue_good all
      { writeQueue := q, inFlight := [], wire := wire ++ [f] } (by simp)
      (by rw [← h2]; simp)
    have he : WriteSide.OnWrite { writeQueue := q, inFlight := [f], wire := wire }
        = WriteSide.ProcessWriteQueue
            { writeQueue := q, inFlight := [], wire := wire ++ [f] } := rfl
    rw [he]
    refine ⟨hg.1, hg.2.1, hg.2.2.1, ?_⟩
    rw [hg.2.2.2.1]
    simp

theorem WriteSide.run_good (encodeHeader : Nat → Bytes) (schedule : List WriteEvent) :
    ∀ (all : List Bytes) (w : WriteSide),
      w.inFlight.length ≤ 1 → w.wire ++ w.inFlight ++ w.writeQueue = all →
      (w.inFlight = [] → w.writeQueue = []) →
      (WriteSide.run encodeHeader schedule w).inFlight.length ≤ 1 ∧
      (WriteSide.run encodeHeader schedule w).wire ++
          (WriteSide.run encodeHeader schedule w).inFlight ++
          (WriteSide.run encodeHeader schedule w).writeQueue
        = all ++ framesOf encodeHeader schedule ∧
      ((WriteSide.run encodeHeader schedule w).inFlight = [] →
        (WriteSide.run encodeHeader schedule w).writeQueue = []) := by
  induction schedule with
  | nil =>
    intro all w h1 h2 h3
    have hl : all ++ framesOf encodeHeader [] = all := List.append_nil all
    rw [hl]
    exact ⟨h1, h2, h3⟩
  | cons e rest ih =>
    intro all w h1 h2 h3
    cases e with
    | enqueue buffer force =>
      have hg := WriteSide.EnqueueMsg_good encodeHeader buffer force all w h1 h2
      have hr := ih _ _ hg.1 hg.2.1 hg.2.2
      have hl : all ++ [frame encodeHeader buffer] ++ framesOf encodeHeader rest
          = all ++ frame encodeHeader buffer :: framesOf encodeHeader rest := by simp
      rw [hl] at hr
      exact hr
    | written =>
      have hg := WriteSide.OnWrite_good all w h1 h2 h3
      have hr := ih _ _ hg.1 hg.2.1 hg.2.2.1
      exact hr

theorem WriteSide.run_written_drains (encodeHeader : Nat → Bytes) (all : List Bytes) (n : Nat) :
    ∀ (w : WriteSide),
      w.inFlight.length ≤ 1 → w.wire ++ w.inFlight ++ w.writeQueue = all →
      (w.inFlight = [] → w.writeQueue = []) →
      w.inFlight.length + w.writeQueue.length ≤ n →
      WriteSide.run encodeHeader (List.replicate n WriteEvent.written) w
        = { writeQueue := [], inFlight := [], wire := all } := by
  induction n with
  | zero =>
    intro w h1 h2 h3 h4
    obtain ⟨q, fl, wire⟩ := w
    simp only at h1 h2 h3 h4
    have hfl : fl = [] := List.length_eq_zero.mp (by omega)
    have hq : q = [] := List.length_eq_zero.mp (by omega)
    subst hfl hq
    simp only [List.append_nil] at h2
    simp [WriteSide.run, h2]
  | succ n ih =>
    intro w h1 h2 h3 h4
    have hg := WriteSide.OnWrite_good all w h1 h2 h3
    have hr := ih w.OnWrite hg.1 hg.2.1 hg.2.2.1 (by rw [hg.2.2.2]; omega)
    exact hr

end WriteHelpers

/-- C19: on the write side started empty, after any sequence of `EnqueueMsg`
calls and write completions (so at any time) at most one write is in
flight, and the frames flushed, in flight and queued are, in this order, the
frames of the enqueued buffers in enqueue order; the completion of the write
in flight puts its frame on the wire and starts the first queued write; and
once as many completions have arrived as there are pending frames, the wire
holds exactly the frames of the enqueued buffers, in enqueue order. -/
theorem C19_writes_one_in_flight_in_enqueue_order (encodeHeader : Nat → Bytes)
    (schedule : List WriteEvent) :
    (WriteSide.run encodeHeader schedule WriteSide.empty).inFlight.length ≤ 1 ∧
    (WriteSide.run encodeHeader schedule WriteSide.empty).wire ++
        (WriteSide.run encodeHeader schedule WriteSide.empty).inFlight ++
        (WriteSide.run encodeHeader schedule WriteSide.empty).writeQueue
      = framesOf encodeHeader schedule ∧
    (∀ f g rest,
      (WriteSide.run encodeHeader schedule WriteSide.empty).inFlight = [f] →
      (WriteSide.run encodeHeader schedule WriteSide.empty).writeQueue = g :: rest →
      (WriteSide.run encodeHeader schedule WriteSide.empty).OnWrite
        = { writeQueue := rest, inFlight := [g],
            wire := (WriteSide.run encodeHeader schedule WriteSide.empty).wire ++ [f] }) ∧
    (∀ n,
      (WriteSide.run encodeHeader schedule WriteSide.empty).inFlight.length +
        (WriteSide.run encodeHeader schedule WriteSide.empty).writeQueue.length ≤ n →
      WriteSide.run encodeHeader (schedule ++ List.replicate n WriteEvent.written)
          WriteSide.empty
        = { writeQueue := [], inFlight := [], wire := framesOf encodeHeader schedule }) := by
  have hg := WriteSide.run_good encodeHeader schedule [] WriteSide.empty (by simp [WriteSide.empty])
    rfl (fun _ => rfl)
  simp only [List.nil_append] at hg
  refine ⟨hg.1, hg.2.1, ?_, ?_⟩
  · intro f g rest hf hq
    generalize WriteSide.run encodeHeader schedule WriteSide.empty = w at hf hq
    obtain ⟨q, fl, wire⟩ := w
    simp only at hf hq
    subst hf hq
    simp [WriteSide.OnWrite, WriteSide.ProcessWriteQueue]
  · intro n hn
    have hsplit : ∀ (s1 s2 : List WriteEvent) (w : WriteSide),
        WriteSide.run encodeHeader (s1 ++ s2) w
          = WriteSide.run encodeHeader s2 (WriteSide.run encodeHeader s1 w) := by
      intro s1
      induction s1 with
      | nil => intro s2 w; rfl
      | cons e rest ih =>
        intro s2 w
        cases e <;> simp [WriteSide.run, ih]
    rw [hsplit]
    exact WriteSide.run_written_drains encodeHeader _ n _ hg.1 hg.2.1 hg.2.2 hn

/-- Witness of C19: two buffers are enqueued without `force` and one write
completes; the first frame is on the wire, the second is in flight; a
second completion puts both on the wire, in enqueue order. -/
theorem C19_writes_one_in_flight_in_enqueue_order_witness :
    WriteSide.run sampleEncodeHeader
        [WriteEvent.enqueue [7] false, WriteEvent.enqueue [8, 9] false, WriteEvent.written]
        WriteSide.empty
      = { writeQueue := [], inFlight := [[0, 0, 0, 0, 0, 0, 0, 2, 8, 9]],
          wire := [[0, 0, 0, 0, 0, 0, 0, 1, 7]] } ∧
    WriteSide.run sampleEncodeHeader
        ([WriteEvent.enqueue [7] false, WriteEvent.enqueue [8, 9] false, WriteEvent.written]
          ++ List.replicate 1 WriteEvent.written)
        WriteSide.empty
      = { writeQueue := [], inFlight := [], wire := [[0, 0, 0, 0, 0, 0, 0, 1, 7], [0, 0, 0, 0, 0, 0, 0, 2, 8, 9]] } :=
  ⟨by decide,
   (C19_writes_one_in_flight_in_enqueue_order sampleEncodeHeader
      [WriteEvent.enqueue [7] false, WriteEvent.enqueue [8, 9] false,
        WriteEvent.written]).2.2.2 1 (by decide)⟩

/-- C20: the constructor of `MapFunctionEnum` succeeds exactly for the strings
"sin", "tan" and "id"; for every other string it throws
`std::invalid_argument` (with the text "Unknown function"); and on the
object it constructs `AsString()` returns the string given to the
constructor. -/
theorem C20_MapFunctionEnum_accepts_exactly_three_names (str : String) :
    ((∃ m, CameraLensPrivate.MapFunctionEnum.ctor str = Except.ok m) ↔
      (str = "sin" ∨ str = "tan" ∨ str = "id")) ∧
    (¬ (str = "sin" ∨ str = "tan" ∨ str = "id") →
      CameraLensPrivate.MapFunctionEnum.ctor str
        = Except.error (CameraLensPrivate.StdException.invalid_argument "Unknown function")) ∧
    (∀ m, CameraLensPrivate.MapFunctionEnum.ctor str = Except.ok m → m.AsString = str) := by
  unfold CameraLensPrivate.MapFunctionEnum.ctor CameraLensPrivate.MapFunctionEnum.variants
  by_cases h1 : "sin" = str
  · subst h1
    simp [CameraLensPrivate.MapFunctionEnum.search, CameraLensPrivate.MapFunctionEnum.AsString]
  · by_cases h2 : "tan" = str
    · subst h2
      simp [CameraLensPrivate.MapFunctionEnum.search,
        CameraLensPrivate.MapFunctionEnum.AsString]
    · by_cases h3 : "id" = str
      · subst h3
        simp [CameraLensPrivate.MapFunctionEnum.search,
          CameraLensPrivate.MapFunctionEnum.AsString]
      · have h1' : ¬ str = "sin" := fun h => h1 h.symm
        have h2' : ¬ str = "tan" := fun h => h2 h.symm
        have h3' : ¬ str = "id" := fun h => h3 h.symm
        simp [CameraLensPrivate.MapFunctionEnum.search, h1, h2, h3, h1', h2', h3']

/-- Witness of C20: "tan" is accepted and given back, "cos" is rejected. -/
theorem C20_MapFunctionEnum_accepts_exactly_three_names_witness :
    (∃ m, CameraLensPrivate.MapFunctionEnum.ctor "tan" = Except.ok m ∧ m.AsString = "tan") ∧
    CameraLensPrivate.MapFunctionEnum.ctor "cos"
      = Except.error (CameraLensPrivate.StdException.invalid_argument "Unknown function") :=
  ⟨((C20_MapFunctionEnum_accepts_exactly_three_names "tan").1.mpr (Or.inr (Or.inl rfl))).elim
      fun m hm => ⟨m, hm, (C20_MapFunctionEnum_accepts_exactly_three_names "tan").2.2 m hm⟩,
    (C20_MapFunctionEnum_accepts_exactly_three_names "cos").2.1 (by decide)⟩

/-- C22: in both `Subscribe` overloads the new handler is put at the end of the
list under the decoded topic before `TopicManager::Subscribe` is called: the
call is made on the node that already has the handler, and its result is what
`Subscribe` returns.  When the call fails with an exception `e`, the exception
leaves `Subscribe` and the node is left as it was during the call, with the
handler in its table: the table is not restored. -/
theorem C22_Subscribe_pushes_handler_before_call (DecodeTopicName : Node → String → String)
    (tmSubscribe : SubscribeOptions → Node → Except String SubscriberPtr)
    (M _topic : String) (_fp _obj : Nat) (_latching : Bool) (n : Node) :
    ((n.SubscribeMember DecodeTopicName tmSubscribe M _topic _fp _obj _latching).2.2
        = tmSubscribe { node := n.id, topic := DecodeTopicName n _topic,
                        msgType := M, latching := _latching }
            { n with callbacks :=
                n.callbacks.pushBack (DecodeTopicName n _topic) ⟨M, Callable.boundMember _fp _obj⟩ } ∧
     ({ n with callbacks :=
          n.callbacks.pushBack (DecodeTopicName n _topic) ⟨M, Callable.boundMember _fp _obj⟩ } : Node).callbacks.find
        (DecodeTopicName n _topic)
      = some ((n.callbacks.find (DecodeTopicName n _topic)).getD [] ++
          [{ M := M, callable := Callable.boundMember _fp _obj }]) ∧
     (∀ e, tmSubscribe { node := n.id, topic := DecodeTopicName n _topic,
                         msgType := M, latching := _latching }
            { n with callbacks :=
                n.callbacks.pushBack (DecodeTopicName n _topic) ⟨M, Callable.boundMember _fp _obj⟩ } = Except.error e →
       (n.SubscribeMember DecodeTopicName tmSubscribe M _topic _fp _obj _latching).2.2
          = Except.error e ∧
       (n.SubscribeMember DecodeTopicName tmSubscribe M _topic _fp _obj _latching).1
          = { n with callbacks :=
                n.callbacks.pushBack (DecodeTopicName n _topic) ⟨M, Callable.boundMember _fp _obj⟩ } ∧
       (n.SubscribeMember DecodeTopicName tmSubscribe M _topic _fp _obj
          _latching).1.callbacks.find (DecodeTopicName n _topic)
        = some ((n.callbacks.find (DecodeTopicName n _topic)).getD [] ++
            [{ M := M, callable := Callable.boundMember _fp _obj }]))) ∧
    ((n.SubscribeFunction DecodeTopicName tmSubscribe M _topic _fp _latching).2.2
        = tmSubscribe { node := n.id, topic := DecodeTopicName n _topic,
                        msgType := M, latching := _latching }
            { n with callbacks :=
                n.callbacks.pushBack (DecodeTopicName n _topic) ⟨M, Callable.freeFunction _fp⟩ } ∧
     ({ n with callbacks :=
          n.callbacks.pushBack (DecodeTopicName n _topic) ⟨M, Callable.freeFunction _fp⟩ } : Node).callbacks.find
        (DecodeTopicName n _topic)
      = some ((n.callbacks.find (DecodeTopicName n _topic)).getD [] ++
          [{ M := M, callable := Callable.freeFunction _fp }]) ∧
     (∀ e, tmSubscribe { node := n.id, topic := DecodeTopicName n _topic,
                         msgType := M, latching := _latching }
            { n with callbacks :=
                n.callbacks.pushBack (DecodeTopicName n _topic) ⟨M, Callable.freeFunction _fp⟩ } = Except.error e →
       (n.SubscribeFunction DecodeTopicName tmSubscribe M _topic _fp _latching).2.2
          = Except.error e ∧
       (n.SubscribeFunction DecodeTopicName tmSubscribe M _topic _fp _latching).1
          = { n with callbacks :=
                n.callbacks.pushBack (DecodeTopicName n _topic) ⟨M, Callable.freeFunction _fp⟩ } ∧
       (n.SubscribeFunction DecodeTopicName tmSubscribe M _topic _fp
          _latching).1.callbacks.find (DecodeTopicName n _topic)
        = some ((n.callbacks.find (DecodeTopicName n _topic)).getD [] ++
            [{ M := M, callable := Callable.freeFunction _fp }]))) := by
  refine ⟨⟨rfl, Callback_M.find_pushBack_self _ _ _, ?_⟩,
    ⟨rfl, Callback_M.find_pushBack_self _ _ _, ?_⟩⟩
  · intro e he
    exact ⟨he, rfl, Callback_M.find_pushBack_self _ _ _⟩
  · intro e he
    exact ⟨he, rfl, Callback_M.find_pushBack_self _ _ _⟩

/-- Witness of C22: the sample node has one handler under "/gazebo/a".  A
`TopicManager::Subscribe` that counts the handlers of the node under the topic
sees two of them during the call, so the new handler is already there; and
when `TopicManager::Subscribe` throws "TypeMismatch", the exception leaves
`Subscribe` and the new handler stays in the table. -/
theorem C22_Subscribe_pushes_handler_before_call_witness :
    (sampleNode.SubscribeMember sampleDecodeTopicName sampleTmSubscribeCounts "msgs.Pose"
        "a" 5 6 false).2.2 = Except.ok 2 ∧
    (sampleNode.SubscribeFunction sampleDecodeTopicName sampleTmSubscribeCounts "msgs.Pose"
        "a" 5 false).2.2 = Except.ok 2 ∧
    (sampleNode.SubscribeMember sampleDecodeTopicName sampleTmSubscribeFails "msgs.Vector3d"
        "a" 5 6 false).2.2 = Except.error "TypeMismatch" ∧
    (sampleNode.SubscribeMember sampleDecodeTopicName sampleTmSubscribeFails "msgs.Vector3d"
        "a" 5 6 false).1.callbacks
      = [("/gazebo/a", [{ M := "msgs.Pose", callable := Callable.freeFunction 1 },
                        { M := "msgs.Vector3d", callable := Callable.boundMember 5 6 }])] :=
  ⟨(C22_Subscribe_pushes_handler_before_call sampleDecodeTopicName sampleTmSubscribeCounts
      "msgs.Pose" "a" 5 6 false sampleNode).1.1.trans (by rfl),
   (C22_Subscribe_pushes_handler_before_call sampleDecodeTopicName sampleTmSubscribeCounts
      "msgs.Pose" "a" 5 6 false sampleNode).2.1.trans (by rfl),
   ((C22_Subscribe_pushes_handler_before_call sampleDecodeTopicName sampleTmSubscribeFails
      "msgs.Vector3d" "a" 5 6 false sampleNode).1.2.2 "TypeMismatch" rfl).1,
   by decide⟩

/-- C23: when the transport holds no connection, or holds one that is not
open, `OnPublish d` only writes its line to `std::cout`: it leaves the
transport as it was, calls no `AsyncRead`, starts no read and invokes no
callback, for every payload `d`. -/
theorem C23_OnPublish_without_open_connection_drops {CB : Type}
    (t : PublicationTransport CB) (d : Bytes)
    (hclosed : t.connection = none ∨ ∃ c, t.connection = some c ∧ c.IsOpen = false) :
    t.OnPublish d = (t, [TEvent.cout ("PublicationTransport::OnPublish[" ++ t.topic ++ "]\n")]) ∧
    callbacksOf (t.OnPublish d).2 = [] ∧
    asyncReadCallsOf (t.OnPublish d).2 = [] ∧
    headerReadsOf (t.OnPublish d).2 = [] ∧
    dataReadsOf (t.OnPublish d).2 = [] := by
  have hstep : t.OnPublish d
      = (t, [TEvent.cout ("PublicationTransport::OnPublish[" ++ t.topic ++ "]\n")]) := by
    rcases hclosed with hnone | ⟨c, hc, ho⟩
    · simp [PublicationTransport.OnPublish, hnone]
    · simp [PublicationTransport.OnPublish, hc, ho]
  rw [hstep]
  exact ⟨rfl, rfl, rfl, rfl, rfl⟩

/-- Witness of C23: the sample transport with callback 7, once without a
connection and once with its connection closed, receives the payload 1, 2. -/
theorem C23_OnPublish_without_open_connection_drops_witness :
    callbacksOf (({ sampleTransport with connection := none, callback := some 7 }
      : PublicationTransport Nat).OnPublish [1, 2]).2 = [] ∧
    callbacksOf (({ sampleTransport with
        connection := some { sampleConnection with state := ConnState.Closed }
        callback := some 7 } : PublicationTransport Nat).OnPublish [1, 2]).2 = [] :=
  ⟨(C23_OnPublish_without_open_connection_drops
      ({ sampleTransport with connection := none, callback := some 7 }) [1, 2]
      (Or.inl rfl)).2.1,
   (C23_OnPublish_without_open_connection_drops
      ({ sampleTransport with
          connection := some { sampleConnection with state := ConnState.Closed }
          callback := some 7 }) [1, 2]
      (Or.inr ⟨{ sampleConnection with state := ConnState.Closed }, rfl, rfl⟩)).2.1⟩

/-- C24: `Fini()` has a result exactly when the transport holds a connection;
on a transport that was just constructed, and on the transport that a
`Fini()` leaves, it dereferences the null `connection` (no result), so a
second `Fini()` is not safe; the destructor has a result in both states: it
only clears the callback and makes no call. -/
theorem C24_Fini_needs_connection_dtor_does_not {CB : Type}
    (GetLocalAddress : Connection → String) (GetLocalPort : Connection → Nat)
    (counter : Nat) (topic msgType : String) (t : PublicationTransport CB) :
    (t.Fini = none ↔ t.connection = none) ∧
    ((PublicationTransport.ctor counter topic msgType
      : PublicationTransport CB × _ × _).1.Fini = none) ∧
    (∀ r, t.Fini = some r → r.1.Fini = none) ∧
    ((PublicationTransport.ctor counter topic msgType
        : PublicationTransport CB × _ × _).1.dtor GetLocalAddress GetLocalPort
      = ((PublicationTransport.ctor counter topic msgType).1, [])) ∧
    (∀ r, t.Fini = some r →
      r.1.dtor GetLocalAddress GetLocalPort = ({ r.1 with callback := none }, [])) := by
  refine ⟨?_, rfl, ?_, rfl, ?_⟩
  · cases hc : t.connection <;> simp [PublicationTransport.Fini, hc]
  · intro r hr
    cases hc : t.connection with
    | none => simp [PublicationTransport.Fini, hc] at hr
    | some c =>
      have hr1 : r = ({ t with connection := none }, [TEvent.cancel c.id]) := by
        simpa [PublicationTransport.Fini, hc] using hr.symm
      rw [hr1]
      rfl
  · intro r hr
    cases hc : t.connection with
    | none => simp [PublicationTransport.Fini, hc] at hr
    | some c =>
      have hr1 : r = ({ t with connection := none }, [TEvent.cancel c.id]) := by
        simpa [PublicationTransport.Fini, hc] using hr.symm
      rw [hr1]
      rfl

/-- Witness of C24: the sample transport: the first `Fini()` returns, the
second one does not, and the destructor after the first `Fini()` makes no
call. -/
theorem C24_Fini_needs_connection_dtor_does_not_witness :
    sampleTransport.Fini
      = some ({ sampleTransport with connection := none }, [TEvent.cancel 1]) ∧
    ({ sampleTransport with connection := none } : PublicationTransport Nat).Fini = none ∧
    ({ sampleTransport with connection := none } : PublicationTransport Nat).dtor
        sampleLocalAddress sampleLocalPort
      = ({ sampleTransport with connection := none }, []) :=
  have key := C24_Fini_needs_connection_dtor_does_not sampleLocalAddress sampleLocalPort
    0 "/t" "m" sampleTransport
  ⟨rfl,
   key.2.2.1 ({ sampleTransport with connection := none }, [TEvent.cancel 1]) rfl,
   key.2.2.2.2 ({ sampleTransport with connection := none }, [TEvent.cancel 1]) rfl⟩

/-- C21: after `SetSelectedEntityCB(name)`, `GetSelectedEntity()` is the entity
that `name` resolves to when there is one and it differs from the entity
selected before, and `NULL` otherwise (so selecting the selected entity
clears the selection); the entity selected before got `SetSelected(false)`,
is not selected afterwards and is not the new selection; and when before the
call no entity other than the selected one was flagged selected, afterwards
every entity flagged selected is the one `GetSelectedEntity()` returns. -/
theorem C21_SetSelectedEntityCB_keeps_single_selection {P : Type}
    (GetByName : String → Option CommonPtr) (GetCompleteScopedName : Nat → String)
    (name : String) (w : World P) (selected : Nat → Bool)
    (hinv : ∀ e, selected e = true → w.selectedEntity = some e) :
    (w.SetSelectedEntityCB GetByName GetCompleteScopedName name).1.GetSelectedEntity
      = (match GetByName name with
         | some (CommonPtr.entity e) => if w.selectedEntity = some e then none else some e
         | _ => none) ∧
    (∀ p, w.selectedEntity = some p →
      WEvent.setSelected p false
        ∈ (w.SetSelectedEntityCB GetByName GetCompleteScopedName name).2 ∧
      selectedAfter (w.SetSelectedEntityCB GetByName GetCompleteScopedName name).2
        selected p = false ∧
      (w.SetSelectedEntityCB GetByName GetCompleteScopedName name).1.GetSelectedEntity
        ≠ some p) ∧
    (∀ e, selectedAfter (w.SetSelectedEntityCB GetByName GetCompleteScopedName name).2
        selected e = true →
      (w.SetSelectedEntityCB GetByName GetCompleteScopedName name).1.GetSelectedEntity
        = some e) ∧
    (∀ e, GetByName name = some (CommonPtr.entity e) → w.selectedEntity = some e →
      (w.SetSelectedEntityCB GetByName GetCompleteScopedName name).1.GetSelectedEntity
        = none) := by
  have hnone : ∀ e, w.selectedEntity = none → selected e = false := by
    intro e hw
    cases hs : selected e with
    | false => rfl
    | true => have := hinv e hs; rw [hw] at this; cases this
  have hother : ∀ p e, w.selectedEntity = some p → e ≠ p → selected e = false := by
    intro p e hw hne
    cases hs : selected e with
    | false => rfl
    | true =>
      have := hinv e hs
      rw [hw] at this
      exact absurd (Option.some.inj this).symm hne
  cases hg : GetByName name with
  | none =>
    cases hw : w.selectedEntity with
    | none =>
      simp [World.SetSelectedEntityCB, World.GetSelectedEntity, hg, hw, selectedAfter]
      exact fun e => hnone e hw
    | some p =>
      simp [World.SetSelectedEntityCB, World.GetSelectedEntity, hg, hw, selectedAfter]
      exact fun e he => hother p e hw he
  | some c =>
    cases c with
    | other c =>
      cases hw : w.selectedEntity with
      | none =>
        simp [World.SetSelectedEntityCB, World.GetSelectedEntity, hg, hw, selectedAfter]
        exact fun e => hnone e hw
      | some p =>
        simp [World.SetSelectedEntityCB, World.GetSelectedEntity, hg, hw, selectedAfter]
        exact fun e he => hother p e hw he
    | entity e =>
      cases hw : w.selectedEntity with
      | none =>
        simp [World.SetSelectedEntityCB, World.GetSelectedEntity, hg, hw, selectedAfter]
        intro a ha
        rw [hnone a hw] at ha
        cases ha
      | some p =>
        by_cases hpe : p = e
        · subst hpe
          simp [World.SetSelectedEntityCB, World.GetSelectedEntity, hg, hw, selectedAfter]
          exact fun x hx => hother p x hw hx
        · have hep : ¬ e = p := fun h => hpe h.symm
          simp [World.SetSelectedEntityCB, World.GetSelectedEntity, hg, hw, selectedAfter, hpe,
            hep]
          intro a hap ha
          rw [hother p a hw hap] at ha
          cases ha

/-- Witness of C21: in the sample world entity 1 ("box") is selected; selecting
"ball" makes entity 2 the selection and entity 1 unselected; selecting "box"
again clears the selection. -/
theorem C21_SetSelectedEntityCB_keeps_single_selection_witness :
    (sampleWorld.SetSelectedEntityCB sampleGetByName sampleScopedName "ball").1.GetSelectedEntity
      = some 2 ∧
    selectedAfter (sampleWorld.SetSelectedEntityCB sampleGetByName sampleScopedName "ball").2
      sampleSelected 1 = false ∧
    (sampleWorld.SetSelectedEntityCB sampleGetByName sampleScopedName "box").1.GetSelectedEntity
      = none :=
  have hinv : ∀ e, sampleSelected e = true → sampleWorld.selectedEntity = some e := by
    intro e he
    have h1 : e = 1 := by simpa [sampleSelected] using he
    rw [h1]
    rfl
  ⟨(C21_SetSelectedEntityCB_keeps_single_selection sampleGetByName sampleScopedName "ball"
      sampleWorld sampleSelected hinv).1.trans (by decide),
   ((C21_SetSelectedEntityCB_keeps_single_selection sampleGetByName sampleScopedName "ball"
      sampleWorld sampleSelected hinv).2.1 1 rfl).2.1,
   (C21_SetSelectedEntityCB_keeps_single_selection sampleGetByName sampleScopedName "box"
      sampleWorld sampleSelected hinv).2.2.2 1 (by decide) rfl⟩

section WorldHelpers

theorem dequeResize_length {α : Type} (n : Nat) (dflt : α) (d : List α) :
    (dequeResize n dflt d).length = n := by
  unfold dequeResize
  simp only [List.length_append, List.length_take, List.length_replicate]
  omega

theorem World.SaveState_valid {P : Type} (w : World P) (N : Nat)
    (hlen : w.worldStates.length = N) (hins : w.worldStatesInsertIter < N)
    (hend : w.worldStatesEndIter < N) :
    ∃ w1, w.SaveState = some w1 ∧
      w1.worldStates = w.worldStates.set w.worldStatesInsertIter
        (w.models.foldl (fun acc m => acc.setPose m.1 m.2)
          (w.worldStates.getD w.worldStatesInsertIter { modelPoses := [] })) ∧
      w1.worldStates.length = N ∧
      w1.worldStatesInsertIter = (w.worldStatesInsertIter + 1) % N ∧
      w1.worldStatesInsertIter < N ∧
      w1.worldStatesEndIter < N ∧
      w1.models = w.models := by
  have hlt : w.worldStatesInsertIter < w.worldStates.length := by omega
  have hget : w.worldStates[w.worldStatesInsertIter]?
      = some (w.worldStates.getD w.worldStatesInsertIter { modelPoses := [] }) := by
    rw [List.getD_eq_getElem?_getD, List.getElem?_eq_getElem hlt]
    rfl
  have hmod : (w.worldStatesInsertIter + 1) % N
      = if w.worldStatesInsertIter + 1 = N then 0 else w.worldStatesInsertIter + 1 := by
    by_cases h : w.worldStatesInsertIter + 1 = N
    · rw [if_pos h, h, Nat.mod_self]
    · rw [if_neg h, Nat.mod_eq_of_lt (by omega)]
  unfold World.SaveState
  rw [hget]
  simp only [List.length_set, hlen]
  by_cases h1 : w.worldStatesInsertIter + 1 = N
  · by_cases h2 : (0 : Nat) = w.worldStatesEndIter
    · simp only [h1, if_true, h2.symm]
      refine ⟨_, rfl, rfl, ?_, ?_, ?_, ?_, rfl⟩
      · simp [hlen]
      · dsimp only
        rw [Nat.mod_self]
      · dsimp only
        omega
      · simp only
        split_ifs <;> omega
    · simp only [h1, if_true, if_neg h2]
      refine ⟨_, rfl, rfl, ?_, ?_, ?_, hend, rfl⟩
      · simp [hlen]
      · dsimp only
        rw [Nat.mod_self]
      · dsimp only
        omega
  · by_cases h2 : w.worldStatesInsertIter + 1 = w.worldStatesEndIter
    · simp only [if_neg h1, if_pos h2]
      refine ⟨_, rfl, rfl, ?_, ?_, ?_, ?_, rfl⟩
      · simp [hlen]
      · simp only
        rw [Nat.mod_eq_of_lt (by omega)]
      · simp only
        omega
      · simp only
        split_ifs <;> omega
    · simp only [if_neg h1, if_neg h2]
      refine ⟨_, rfl, rfl, ?_, ?_, ?_, hend, rfl⟩
      · simp [hlen]
      · dsimp only
        rw [Nat.mod_eq_of_lt (by omega)]
      · dsimp only
        omega

theorem World.SaveStates_valid {P : Type} (w : World P) (N : Nat) (hN : 0 < N)
    (hlen : w.worldStates.length = N) (hins : w.worldStatesInsertIter = 0)
    (hend : w.worldStatesEndIter < N) (k : Nat) :
    ∃ wk, w.SaveStates k = some wk ∧
      wk.worldStates.length = N ∧
      wk.worldStatesInsertIter = k % N ∧
      wk.worldStatesEndIter < N ∧
      wk.models = w.models := by
  induction k with
  | zero =>
    exact ⟨w, rfl, hlen, by rw [hins, Nat.zero_mod], hend, rfl⟩
  | succ k ih =>
    obtain ⟨wk, hk, hl, hi, he, hm⟩ := ih
    have hlt : wk.worldStatesInsertIter < N := by rw [hi]; exact Nat.mod_lt _ hN
    obtain ⟨w1, h1, _, hl1, hi1, _, he1, hm1⟩ := World.SaveState_valid wk N hl hlt he
    refine ⟨w1, ?_, hl1, ?_, he1, hm1.trans hm⟩
    · simp [World.SaveStates, hk, h1]
    · rw [hi1, hi, Nat.mod_add_mod]

theorem mapFind_mapAssign {P : Type} (m : List (String × P)) (name key : String) (pose : P) :
    mapFind (mapAssign m name pose) key
      = if name = key then some pose else mapFind m key := by
  induction m with
  | nil => simp [mapAssign, mapFind]
  | cons e rest ih =>
    obtain ⟨k, v⟩ := e
    by_cases hk : k = name
    · subst hk
      by_cases hkey : k = key
      · simp [mapAssign, mapFind, hkey]
      · simp [mapAssign, mapFind, hkey]
    · by_cases hkey : k = key
      · subst hkey
        have hne : ¬ name = k := fun h => hk h.symm
        simp [mapAssign, mapFind, hk, hne]
      · simp [mapAssign, mapFind, hk, hkey, ih]

theorem mapFind_foldl_setPose {P : Type} (models : List (String × P)) (key : String) :
    ∀ ws : WorldState P,
      mapFind (models.foldl (fun acc m => acc.setPose m.1 m.2) ws).modelPoses key
        = match poseOfModel models key with
          | some pose => some pose
          | none => mapFind ws.modelPoses key := by
  induction models with
  | nil =>
    intro ws
    rfl
  | cons m rest ih =>
    intro ws
    obtain ⟨n, pose⟩ := m
    rw [List.foldl_cons, ih]
    cases hrest : poseOfModel rest key with
    | some later => simp [poseOfModel, hrest]
    | none =>
      by_cases hn : n = key
      · simp [poseOfModel, hrest, hn, WorldState.setPose, mapFind_mapAssign]
      · simp [poseOfModel, hrest, hn, WorldState.setPose, mapFind_mapAssign]

end WorldHelpers

/-- C28: for a buffer of size `N > 0` as `World::Load` sets it up, every number
`k` of consecutive `SaveState()` calls returns, leaving a buffer of `N` slots
with the insert position at `k mod N` and the insert and end positions both
below `N` (valid slots, not `end()`); and the next call, the `(k+1)`-th,
writes slot `k mod N` and no other: every other slot is as before, and in
slot `k mod N` the pose found under a name is the pose of the (last) model of
that name, or, for a name that no model has, what the slot held before. -/
theorem C28_SaveState_ring_positions {P : Type} (N : Nat) (hN : 0 < N) (w : World P)
    (k : Nat) :
    ∃ wk, (w.Load_worldStates N).SaveStates k = some wk ∧
      wk.worldStates.length = N ∧
      wk.worldStatesInsertIter = k % N ∧
      wk.worldStatesInsertIter < N ∧
      wk.worldStatesEndIter < N ∧
      ∃ wk1, (w.Load_worldStates N).SaveStates (k + 1) = some wk1 ∧
        wk1.worldStates = wk.worldStates.set (k % N)
          (w.models.foldl (fun acc m => acc.setPose m.1 m.2)
            (wk.worldStates.getD (k % N) { modelPoses := [] })) ∧
        wk1.worldStates.length = N ∧
        (∀ i, i ≠ k % N → wk1.worldStates[i]? = wk.worldStates[i]?) ∧
        ∃ before after, wk.worldStates[k % N]? = some before ∧
          wk1.worldStates[k % N]? = some after ∧
          ∀ name, mapFind after.modelPoses name
            = match poseOfModel w.models name with
              | some pose => some pose
              | none => mapFind before.modelPoses name := by
  have hlen : (w.Load_worldStates N).worldStates.length = N := dequeResize_length _ _ _
  obtain ⟨wk, hk, hl, hi, he, hm⟩ :=
    World.SaveStates_valid (w.Load_worldStates N) N hN hlen rfl hN k
  have hlt : wk.worldStatesInsertIter < N := by rw [hi]; exact Nat.mod_lt _ hN
  obtain ⟨w1, h1, hw1, hl1, _, _, _, _⟩ := World.SaveState_valid wk N hl hlt he
  have hmodel : wk.models = w.models := hm
  have hw1' : w1.worldStates = wk.worldStates.set (k % N)
      (w.models.foldl (fun acc m => acc.setPose m.1 m.2)
        (wk.worldStates.getD (k % N) { modelPoses := [] })) := by
    rw [hw1, hi, hmodel]
  have hkN : k % N < wk.worldStates.length := by rw [hl]; exact Nat.mod_lt _ hN
  refine ⟨wk, hk, hl, hi, hlt, he, w1, ?_, hw1', hl1, ?_, ?_⟩
  · simp [World.SaveStates, hk, h1]
  · intro i hne
    rw [hw1', List.getElem?_set_ne (Ne.symm hne)]
  · refine ⟨wk.worldStates.getD (k % N) { modelPoses := [] },
      w.models.foldl (fun acc m => acc.setPose m.1 m.2)
        (wk.worldStates.getD (k % N) { modelPoses := [] }), ?_, ?_, ?_⟩
    · rw [List.getD_eq_getElem?_getD, List.getElem?_eq_getElem hkN]
      rfl
    · rw [hw1', List.getElem?_set_self hkN]
    · intro name
      exact mapFind_foldl_setPose w.models name _

/-- Witness of C28: the sample world (models "box" with pose 4 and "ball" with
pose 5) with a buffer of 2 slots.  After 3 calls the insert position is 1 and
the end position is below 2; the third call wrote slot 0, where "ball" is
found with pose 5. -/
theorem C28_SaveState_ring_positions_witness :
    (∃ wk, (sampleWorld.Load_worldStates 2).SaveStates 3 = some wk ∧
      wk.worldStatesInsertIter = 1 ∧ wk.worldStatesEndIter < 2) ∧
    (∃ wk1 after, (sampleWorld.Load_worldStates 2).SaveStates 3 = some wk1 ∧
      wk1.worldStates[0]? = some after ∧ mapFind after.modelPoses "ball" = some 5) :=
  ⟨(C28_SaveState_ring_positions 2 (by decide) sampleWorld 3).elim
      fun wk h => ⟨wk, h.1, h.2.2.1, h.2.2.2.2.1⟩,
   (C28_SaveState_ring_positions 2 (by decide) sampleWorld 2).elim
      fun _ h => h.2.2.2.2.2.elim
        fun wk1 h1 => h1.2.2.2.2.elim
          fun _ h2 => h2.elim
            fun after h3 => ⟨wk1, after, h1.1, h3.2.1, (h3.2.2 "ball").trans rfl⟩⟩

/-- C25, the code at the failing input: two images of one byte (width, height
and depth 1), A = [0] and B = [1].  The absolute difference is 1, so the
claimed `_diffMax` and `_diffSum` are 1 and 1; `ImageCompare` leaves
4294967295 in both, because `a - b` is computed in `unsigned int` before
`fabs` is applied.  With the images swapped it leaves 1 and 1. -/
theorem C25_ImageCompare_wraps_when_A_below_B :
    ServerFixture.ImageCompare [0] [1] 1 1 1 = some (4294967295, 4294967295, 4294967295) ∧
    ServerFixture.claimedDiffMaxSum [0] [1] = (1, 1) ∧
    ServerFixture.ImageCompare [1] [0] 1 1 1 = some (1, 1, 1) ∧
    ServerFixture.claimedDiffMaxSum [1] [0] = (1, 1) := by
  refine ⟨?_, ?_, ?_, ?_⟩ <;> decide

/-- C26, the code at the failing input: a `PLAYER_SIMULATION_REQ_GET_POSE3D`
request for "box", answered by the simulator with the model pose
x = 1, y = 2, z = 3, roll = 4, pitch = 5, yaw = 6.  The reply carries
pz = 2, the y of the model pose, not its z = 3; the other five components
are those of the model pose. -/
theorem C26_GET_POSE3D_reply_pz_is_y :
    SimulationInterface.ProcessMessage [sampleGazebo]
        (SimulationInterface.Request.GET_POSE3D "box"
          { px := 0, py := 0, pz := 0, proll := 0, ppitch := 0, pyaw := 0 })
        sampleSimulationData
      = some (({ model_name := "", model_req := "get_pose",
                 model_pose := { x := 1, y := 2, z := 3, roll := 4, pitch := 5, yaw := 6 } }
                : SimulationInterface.SimulationData Int),
              [(SimulationInterface.Published.ackGetPose3d "box"
                { px := 1, py := 2, pz := 2, proll := 4, ppitch := 5, pyaw := 6 }
                : SimulationInterface.Published Int)]) := by
  decide

section DistortionHelpers

theorem Distortion.side_lt_of_square_lt (W : Nat) (h : W * W < UINT_RANGE) : W < 65536 := by
  by_contra hge
  have h1 : 65536 ≤ W := Nat.le_of_not_lt hge
  have h2 : 65536 * 65536 ≤ W * W := Nat.mul_le_mul h1 h1
  have h3 : UINT_RANGE = 65536 * 65536 := by decide
  omega

theorem Distortion.index_lt (W x y : Nat) (hx : x < W) (hy : y < W) : y * W + x < W * W := by
  have h1 : y * W + x < (y + 1) * W := by rw [Nat.add_mul, Nat.one_mul]; omega
  have h2 : (y + 1) * W ≤ W * W := Nat.mul_le_mul_right W hy
  omega

theorem Distortion.toInt_small (u : Nat) (h : u < 65536) : toInt u = (u : Int) := by
  have h1 : u % UINT_RANGE = u := Nat.mod_eq_of_lt (by unfold UINT_RANGE; omega)
  unfold toInt
  rw [h1, if_pos (by omega)]

theorem Distortion.toUnsigned_small (i : Int) (h0 : 0 ≤ i) (h : i < 65536) :
    toUnsigned i = i.toNat := by
  unfold toUnsigned
  rw [Int.emod_eq_of_lt h0 (by omega)]

end DistortionHelpers

/-- C27, counterexample: `SetCamera` on a camera of 3 by 4 pixels leaves a map
of 3 by 3 entries, here with no entry overwritten by the fill loop; position
(0, 0) lies inside `[0, 3)` in both coordinates and
`DistortionMapValueClamped(0, 0)` returns `(-1, -1)`, the entry of the map at
index 0. -/
theorem C27_counterexample_inside_returns_minus_one :
    Distortion.SetCamera sampleUnfilled (some { ImageWidth := 3, ImageHeight := 4 })
        { distortionTexWidth := 0, distortionTexHeight := 0, distortionMap := [] }
      = some (({ distortionTexWidth := 3, distortionTexHeight := 3,
                 distortionMap := (List.range 9).map sampleUnfilled }
                : Distortion.DistortionPrivate Int), []) ∧
    ((0 : Int) ≤ 0 ∧ (0 : Int) < 3) ∧
    Distortion.DistortionMapValueClamped (-1)
        ({ distortionTexWidth := 3, distortionTexHeight := 3,
           distortionMap := (List.range 9).map sampleUnfilled }
          : Distortion.DistortionPrivate Int) 0 0
      = some { X := -1, Y := -1 } := by
  refine ⟨?_, ?_, ?_⟩ <;> decide

/-- C27, amended: let `SetCamera` have run on a camera and returned, leaving the
state `r.1`.  The distortion map has `distortionTexWidth * distortionTexHeight`
entries.  For all `x`, `y`: when `x` is outside `[0, distortionTexWidth)` or
`y` is outside `[0, distortionTexHeight)`, `DistortionMapValueClamped(x, y)`
returns `(-1, -1)`; otherwise the index `y * distortionTexWidth + x` is
smaller than `distortionTexWidth * distortionTexHeight`, the size of the map,
and the entry of the map at that index is returned (whatever its value). -/
theorem C27_DistortionMapValueClamped_in_bounds {R : Type} (minusOne : R)
    (filled : Nat → Distortion.Vector2d R) (camera : Distortion.Camera)
    (d : Distortion.DistortionPrivate R) (x y : Int)
    (r : Distortion.DistortionPrivate R × List String)
    (hset : Distortion.SetCamera filled (some camera) d = some r) :
    r.1.distortionMap.length = r.1.distortionTexWidth * r.1.distortionTexHeight ∧
    ((x < 0 ∨ (r.1.distortionTexWidth : Int) ≤ x ∨
      y < 0 ∨ (r.1.distortionTexHeight : Int) ≤ y) →
      Distortion.DistortionMapValueClamped minusOne r.1 x y
        = some { X := minusOne, Y := minusOne }) ∧
    ((0 ≤ x ∧ x < (r.1.distortionTexWidth : Int) ∧
      0 ≤ y ∧ y < (r.1.distortionTexHeight : Int)) →
      y.toNat * r.1.distortionTexWidth + x.toNat
        < r.1.distortionTexWidth * r.1.distortionTexHeight ∧
      y.toNat * r.1.distortionTexWidth + x.toNat < r.1.distortionMap.length ∧
      Distortion.DistortionMapValueClamped minusOne r.1 x y
        = r.1.distortionMap[y.toNat * r.1.distortionTexWidth + x.toNat]? ∧
      Distortion.DistortionMapValueClamped minusOne r.1 x y
        = some (filled (y.toNat * r.1.distortionTexWidth + x.toNat))) := by
  generalize hW : ((if camera.ImageHeight > camera.ImageWidth then camera.ImageHeight
    else camera.ImageWidth) + UINT_RANGE - 1) % UINT_RANGE = W at hset
  have hsq : W * W < UINT_RANGE := by
    by_contra hge
    simp only [Distortion.SetCamera, hW, if_neg hge] at hset
    cases hset
  have hr : r = (⟨W, W, (List.range (W * W % UINT_RANGE)).map filled⟩, []) := by
    simp only [Distortion.SetCamera, hW, if_pos hsq] at hset
    exact (Option.some.inj hset).symm
  rw [hr]
  simp only [List.length_map, List.length_range]
  have hmodsq : W * W % UINT_RANGE = W * W := Nat.mod_eq_of_lt hsq
  have hW16 : W < 65536 := Distortion.side_lt_of_square_lt W hsq
  have hcast : toInt W = (W : Int) := Distortion.toInt_small W hW16
  refine ⟨hmodsq, ?_, ?_⟩
  · intro hout
    unfold Distortion.DistortionMapValueClamped
    simp only
    rw [hcast, if_pos]
    rcases hout with h | h | h | h
    · exact Or.inl h
    · exact Or.inr (Or.inl h)
    · exact Or.inr (Or.inr (Or.inl h))
    · exact Or.inr (Or.inr (Or.inr h))
  · rintro ⟨hx0, hxW, hy0, hyW⟩
    have hxn : x.toNat < W := by omega
    have hyn : y.toNat < W := by omega
    have hidx : y.toNat * W + x.toNat < W * W := Distortion.index_lt W _ _ hxn hyn
    have hux : toUnsigned x = x.toNat := Distortion.toUnsigned_small x hx0 (by omega)
    have huy : toUnsigned y = y.toNat := Distortion.toUnsigned_small y hy0 (by omega)
    have hmul : y.toNat * W % UINT_RANGE = y.toNat * W := Nat.mod_eq_of_lt (by omega)
    have hsum : (y.toNat * W + x.toNat) % UINT_RANGE = y.toNat * W + x.toNat :=
      Nat.mod_eq_of_lt (by omega)
    have hcall : Distortion.DistortionMapValueClamped minusOne
        { distortionTexWidth := W, distortionTexHeight := W,
          distortionMap := (List.range (W * W % UINT_RANGE)).map filled } x y
        = ((List.range (W * W % UINT_RANGE)).map filled)[y.toNat * W + x.toNat]? := by
      unfold Distortion.DistortionMapValueClamped
      simp only
      rw [hcast, if_neg (by omega), hux, huy, hmul, hsum]
    refine ⟨hidx, by omega, hcall, ?_⟩
    rw [hcall, List.getElem?_map, List.getElem?_range (by omega)]
    rfl

/-- Witness of amended C27: a camera of 3 by 4 pixels gives a map of 3 by 3
entries; position (3, 1) is outside, position (2, 1) is entry 5. -/
theorem C27_DistortionMapValueClamped_in_bounds_witness :
    Distortion.SetCamera sampleFilled (some { ImageWidth := 3, ImageHeight := 4 })
        { distortionTexWidth := 0, distortionTexHeight := 0, distortionMap := [] }
      = some (({ distortionTexWidth := 3, distortionTexHeight := 3,
                 distortionMap := (List.range 9).map sampleFilled }
                : Distortion.DistortionPrivate Int), []) ∧
    Distortion.DistortionMapValueClamped (-1)
        ({ distortionTexWidth := 3, distortionTexHeight := 3,
           distortionMap := (List.range 9).map sampleFilled }
          : Distortion.DistortionPrivate Int) 3 1
      = some { X := -1, Y := -1 } ∧
    Distortion.DistortionMapValueClamped (-1)
        ({ distortionTexWidth := 3, distortionTexHeight := 3,
           distortionMap := (List.range 9).map sampleFilled }
          : Distortion.DistortionPrivate Int) 2 1
      = some (sampleFilled 5) :=
  have key := fun x y => C27_DistortionMapValueClamped_in_bounds (-1 : Int) sampleFilled
    { ImageWidth := 3, ImageHeight := 4 }
    { distortionTexWidth := 0, distortionTexHeight := 0, distortionMap := [] } x y
    (({ distortionTexWidth := 3, distortionTexHeight := 3,
        distortionMap := (List.range 9).map sampleFilled }
       : Distortion.DistortionPrivate Int), [])
    (by decide)
  ⟨by decide, (key 3 1).2.1 (by decide), ((key 2 1).2.2 (by decide)).2.2.2⟩

/-- C29: `Start()` leaves the maker in state 1, active.  From state 1 a first
`OnMouseRelease` only moves the maker to state 2: it is still active and
nothing is published.  From state 2 the second `OnMouseRelease` runs
`CreateTheEntity()` once, followed by `Stop()`: exactly one factory message
is published and the maker is inactive.  `OnMousePush` and `OnMouseDrag` keep
the state.  While the maker is inactive (state 0), `OnMousePush`,
`OnMouseDrag` and `OnMouseRelease` leave the maker as it is and publish
nothing.  The state stays among 0, 1 and 2, so inactive means state 0. -/
theorem C29_two_releases_create_one_entity {R : Type} (env : CylinderMaker.Env R)
    (camera : Option Nat) (counter : Nat) (event : CylinderMaker.MouseEvent)
    (m : CylinderMaker.Maker R) :
    ((CylinderMaker.Start camera counter m).1.state = 1 ∧
      CylinderMaker.IsActive (CylinderMaker.Start camera counter m).1 = true) ∧
    (m.state = 1 →
      CylinderMaker.OnMouseRelease env m = ({ m with state := 2 }, []) ∧
      CylinderMaker.IsActive (CylinderMaker.OnMouseRelease env m).1 = true) ∧
    (m.state = 2 →
      (CylinderMaker.OnMouseRelease env m).2
        = (CylinderMaker.CreateTheEntity env { m with state := 3 }).2 ++
          (CylinderMaker.Stop (CylinderMaker.CreateTheEntity env { m with state := 3 }).1).2 ∧
      (makerPublishesOf (CylinderMaker.OnMouseRelease env m).2).length = 1 ∧
      (CylinderMaker.OnMouseRelease env m).1.state = 0 ∧
      CylinderMaker.IsActive (CylinderMaker.OnMouseRelease env m).1 = false) ∧
    ((CylinderMaker.OnMousePush event m).state = m.state ∧
      ∀ r, CylinderMaker.OnMouseDrag env event m = some r → r.1.state = m.state) ∧
    (CylinderMaker.IsActive m = false → 0 ≤ m.state →
      CylinderMaker.OnMousePush event m = m ∧
      CylinderMaker.OnMouseDrag env event m = some (m, []) ∧
      CylinderMaker.OnMouseRelease env m = (m, [])) ∧
    (0 ≤ m.state ∧ m.state ≤ 2 →
      (0 ≤ (CylinderMaker.OnMouseRelease env m).1.state ∧
        (CylinderMaker.OnMouseRelease env m).1.state ≤ 2) ∧
      (CylinderMaker.Stop m).1.state = 0) := by
  refine ⟨⟨rfl, rfl⟩, ?_, ?_, ⟨?_, ?_⟩, ?_, ?_⟩
  rotate_left 5
  · rintro ⟨hlo, hhi⟩
    refine ⟨?_, rfl⟩
    have hcases : m.state = 0 ∨ m.state = 1 ∨ m.state = 2 := by omega
    rcases hcases with h | h | h <;>
      simp [CylinderMaker.OnMouseRelease, CylinderMaker.Stop, CylinderMaker.CreateTheEntity, h]
  · intro h1
    simp [CylinderMaker.OnMouseRelease, CylinderMaker.IsActive, h1]
  · intro h2
    simp [CylinderMaker.OnMouseRelease, CylinderMaker.IsActive, CylinderMaker.Stop,
      CylinderMaker.CreateTheEntity, makerPublishesOf, h2]
  · unfold CylinderMaker.OnMousePush
    split_ifs <;> rfl
  · intro r hr
    unfold CylinderMaker.OnMouseDrag at hr
    by_cases h0 : m.state = 0
    · rw [if_pos h0] at hr
      cases hr
      rfl
    · rw [if_neg h0] at hr
      cases hc : m.camera with
      | none => simp [hc] at hr
      | some c =>
        simp only [hc] at hr
        cases hr
        rfl
  · intro hinactive hnonneg
    have h0 : m.state = 0 := by
      have : ¬ m.state > 0 := by simpa [CylinderMaker.IsActive] using hinactive
      omega
    simp [CylinderMaker.OnMousePush, CylinderMaker.OnMouseDrag, CylinderMaker.OnMouseRelease,
      h0]

/-- Witness of C29: the sample maker is started, the mouse is released twice,
and the mouse is released once more on the inactive maker. -/
theorem C29_two_releases_create_one_entity_witness :
    (CylinderMaker.OnMouseRelease sampleEnv
        (CylinderMaker.Start (some 1) 0 sampleMaker).1).2 = [] ∧
    (makerPublishesOf (CylinderMaker.OnMouseRelease sampleEnv
        (CylinderMaker.OnMouseRelease sampleEnv
          (CylinderMaker.Start (some 1) 0 sampleMaker).1).1).2).length = 1 ∧
    CylinderMaker.IsActive (CylinderMaker.OnMouseRelease sampleEnv
        (CylinderMaker.OnMouseRelease sampleEnv
          (CylinderMaker.Start (some 1) 0 sampleMaker).1).1).1 = false ∧
    CylinderMaker.OnMouseRelease sampleEnv sampleMaker = (sampleMaker, []) :=
  have first := (C29_two_releases_create_one_entity sampleEnv (some 1) 0
    { pos := { x := 0, y := 0 }, pressPos := { x := 0, y := 0 } }
    (CylinderMaker.Start (some 1) 0 sampleMaker).1).2.1 rfl
  have second := (C29_two_releases_create_one_entity sampleEnv (some 1) 0
    { pos := { x := 0, y := 0 }, pressPos := { x := 0, y := 0 } }
    (CylinderMaker.OnMouseRelease sampleEnv
      (CylinderMaker.Start (some 1) 0 sampleMaker).1).1).2.2.1 rfl
  have idle := (C29_two_releases_create_one_entity sampleEnv (some 1) 0
    { pos := { x := 0, y := 0 }, pressPos := { x := 0, y := 0 } }
    sampleMaker).2.2.2.2.1 rfl (by decide)
  ⟨by rw [first.1], second.2.1, second.2.2.2, idle.2.2⟩

end Gazebo
